import Mathlib

/-!
# Open-operator: history ledger, plan extraction, plan gate and plan executor

A shallow embedding of the parts of `popup.js`, `content.js` and `background.js`
that decide the plan pipeline and the history ledger, followed by the theorems
that settle the specification's claims about them.

Platform calls (storage, the DOM, `JSON.parse`, dialogs) are not code of the
repository; they appear as explicit inputs of the embedded functions.
-/

namespace OpenOperator

/-! ## JavaScript values -/

/-- A JavaScript number as far as this program observes it: the program never
computes with numbers that come out of `JSON.parse`, it only tests them for
truthiness and renders them inside template literals. -/
structure JSNumber where
  /-- The number is `+0` or `-0` (the only falsy numbers `JSON.parse` yields). -/
  isZero : Bool
  /-- The result of `Number.prototype.toString`. -/
  text : String
deriving DecidableEq, Repr

/-- The JavaScript values that can travel through `JSON.parse`, extension
messages and `chrome.storage`, plus `undefined` for absent properties. An
object is its list of own properties, in lookup order. -/
inductive JSVal where
  | undefined
  | null
  | bool (b : Bool)
  | num (n : JSNumber)
  | str (s : String)
  | arr (items : List JSVal)
  | obj (fields : List (String × JSVal))
deriving Repr

/-- A thrown JavaScript exception: constructor name and `message`. -/
structure JsError where
  name : String
  message : String
deriving DecidableEq, Repr

/-- The exception built by `new Error(message)`. -/
def JsError.mkError (message : String) : JsError := ⟨"Error", message⟩

/-- ToBoolean: `undefined`, `null`, `false`, zero and the empty string are
falsy; arrays and objects are truthy. -/
def JSVal.truthy : JSVal → Bool
  | .undefined => false
  | .null => false
  | .bool b => b
  | .num n => !n.isZero
  | .str s => s != ""
  | .arr _ => true
  | .obj _ => true

/-- The `typeof v === 'string'` test. -/
def JSVal.isString : JSVal → Bool
  | .str _ => true
  | _ => false

mutual
/-- ToString, as applied by template literals. Arrays are joined with commas.
An object without an own `toString` property renders as `[object Object]`; an
object with one cannot be converted, because no value that came out of
`JSON.parse` is callable, and the conversion throws a `TypeError`. -/
def JSVal.toStr : JSVal → Except JsError String
  | .undefined => .ok "undefined"
  | .null => .ok "null"
  | .bool true => .ok "true"
  | .bool false => .ok "false"
  | .num n => .ok n.text
  | .str s => .ok s
  | .arr items => JSVal.joinItems items
  | .obj fields =>
      if fields.any (fun p => p.1 == "toString") then
        .error ⟨"TypeError", "Cannot convert object to primitive value"⟩
      else .ok "[object Object]"
/-- The body of `Array.prototype.join(",")`: `null` and `undefined` items render
as the empty string, every other item through ToString. -/
def JSVal.joinItems : List JSVal → Except JsError String
  | [] => .ok ""
  | [v] => JSVal.itemStr v
  | v :: rest =>
      match JSVal.itemStr v with
      | .error e => .error e
      | .ok s =>
          match JSVal.joinItems rest with
          | .error e => .error e
          | .ok t => .ok (s ++ "," ++ t)
/-- One array item inside `join`. -/
def JSVal.itemStr : JSVal → Except JsError String
  | .undefined => .ok ""
  | .null => .ok ""
  | .bool true => .ok "true"
  | .bool false => .ok "false"
  | .num n => .ok n.text
  | .str s => .ok s
  | .arr items => JSVal.joinItems items
  | .obj fields =>
      if fields.any (fun p => p.1 == "toString") then
        .error ⟨"TypeError", "Cannot convert object to primitive value"⟩
      else .ok "[object Object]"
end

/-- Own-property lookup in a property list. -/
def lookupField (key : String) : List (String × JSVal) → JSVal
  | [] => .undefined
  | (k, v) :: rest => if k = key then v else lookupField key rest

/-- Property read `v.key` for the property names this program reads (`action`,
`details`, `url`, `selector`, `text`, `choices`, `message`, `content`), none of
which lives on a built-in prototype: reading from `undefined` or `null` throws a `TypeError`, reading
from an object looks the own property up, reading from any other value gives
`undefined`. -/
def JSVal.getProp (v : JSVal) (key : String) : Except JsError JSVal :=
  match v with
  | .undefined =>
      .error ⟨"TypeError", "Cannot read properties of undefined (reading '" ++ key ++ "')"⟩
  | .null =>
      .error ⟨"TypeError", "Cannot read properties of null (reading '" ++ key ++ "')"⟩
  | .obj fields => .ok (lookupField key fields)
  | _ => .ok .undefined

/-! ## History store (`popup.js` `saveToHistory`, `background.js` `getHistory`) -/

/-- The entry object literal built in `saveToHistory`. -/
structure HistoryEntry where
  prompt : String
  response : JSVal
  timestamp : String
deriving Repr

/-- The two `chrome.storage.local` slots the extension uses; `none` is an unset
key. -/
structure Storage where
  llmHistory : Option (List HistoryEntry)
  mistralApiKey : Option String
deriving Repr

/-- The call `chrome.storage.local.set({ llmHistory: value }, cb)`: `lastError` is
what `chrome.runtime.lastError` holds in the callback; the slot is replaced
when the write completed. -/
def Storage.setHistory (st : Storage) (value : List HistoryEntry)
    (lastError : Option String) : Storage :=
  match lastError with
  | none => { st with llmHistory := some value }
  | some _ => st

/-- What `saveToHistory` computes and hands to `chrome.storage.local.set`: the
slot read with `|| []`, `unshift(entry)`, then `slice(0, 100)`. `now` is
`new Date().toISOString()`. -/
def trimmedHistory (slot : Option (List HistoryEntry)) (prompt : String) (response : JSVal)
    (now : String) : List HistoryEntry :=
  let history := slot.getD []
  let entry : HistoryEntry := { prompt := prompt, response := response, timestamp := now }
  (entry :: history).take 100

/-- The function `saveToHistory(prompt, response)`: the storage afterwards and
the settlement of the returned promise (`.error` is `reject(lastError)`). -/
def saveToHistory (st : Storage) (prompt : String) (response : JSVal) (now : String)
    (lastError : Option String) : Storage × Except String Unit :=
  let trimmed := trimmedHistory st.llmHistory prompt response now
  match lastError with
  | some e => (st.setHistory trimmed (some e), .error e)
  | none => (st.setHistory trimmed none, .ok ())

/-- The `getHistory` message handler of `background.js`: the `history` field of
the response, `result.llmHistory || []`. -/
def getHistory (st : Storage) : List HistoryEntry :=
  st.llmHistory.getD []

/-- The click handler of the `clearHistory` button: `confirmed` is the answer of
the `confirm` dialog. -/
def clearHistory (st : Storage) (confirmed : Bool) (lastError : Option String) : Storage :=
  if confirmed then st.setHistory [] lastError else st

/-! ## String primitives

JavaScript strings are modelled by Lean strings, their operations by functions
on the list of characters. The program only combines positions returned by
`indexOf` with the length of an ASCII marker, so counting characters instead of
UTF-16 code units selects the same substrings. -/

/-- The characters removed by `String.prototype.trim`: the ECMAScript
`WhiteSpace` and `LineTerminator` code points. -/
def isWhiteSpace (c : Char) : Bool :=
  let n := c.toNat
  n = 0x09 || n = 0x0A || n = 0x0B || n = 0x0C || n = 0x0D || n = 0x20 || n = 0xA0 ||
  n = 0x1680 || (0x2000 ≤ n && n ≤ 0x200A) || n = 0x2028 || n = 0x2029 || n = 0x202F ||
  n = 0x205F || n = 0x3000 || n = 0xFEFF

/-- The method `trim` on the character list. -/
def trimChars (cs : List Char) : List Char :=
  ((cs.dropWhile isWhiteSpace).reverse.dropWhile isWhiteSpace).reverse

/-- The method `String.prototype.trim`. -/
def trim (s : String) : String := ⟨trimChars s.data⟩

/-- Search of `indexOf` from position `i` on: the first position at which
`needle` starts, or `-1`. -/
def indexOfFrom (needle : List Char) : List Char → Nat → Int
  | [], i => if needle.isPrefixOf [] then (i : Int) else -1
  | c :: cs, i => if needle.isPrefixOf (c :: cs) then (i : Int) else indexOfFrom needle cs (i + 1)

/-- The method `String.prototype.indexOf(needle)`. -/
def indexOf (s needle : String) : Int := indexOfFrom needle.data s.data 0

/-- Clamping of a `substring` argument into `0 .. len`. -/
def clampIndex (len : Nat) (i : Int) : Nat := min i.toNat len

/-- The method `String.prototype.substring(a, b)`: both arguments are clamped
into the string and swapped when `a > b`. -/
def substring (s : String) (a b : Int) : String :=
  let fa := clampIndex s.length a
  let fb := clampIndex s.length b
  ⟨(s.data.drop (min fa fb)).take (max fa fb - min fa fb)⟩

/-- Lower-casing of one character as far as it can produce ASCII: `A`..`Z`, the
Kelvin sign (which lower-cases to `k`) and the dotted capital I (which
lower-cases to `i` followed by a combining dot). Other non-ASCII characters are
kept; JavaScript maps them to non-ASCII characters as well, so comparisons of
the result with ASCII labels are the ones JavaScript makes. -/
def toLowerCaseChar (c : Char) : List Char :=
  if c.toNat = 0x212A then ['k']
  else if c.toNat = 0x0130 then ['i', Char.ofNat 0x0307]
  else [c.toLower]

/-- The method `String.prototype.toLowerCase`. -/
def toLowerCase (s : String) : String := ⟨s.data.flatMap toLowerCaseChar⟩

/-! ## Plan extraction and the popup's gate (`popup.js` `handleSendAction`) -/

/-- The constant `startMarker`. -/
def startMarker : String := "<START_JSON>"

/-- The constant `endMarker`. -/
def endMarker : String := "<END_JSON>"

/-- The marker step of `handleSendAction` (the same text in both declarations):
`indexOf` of each marker, the throw when one is `-1`, otherwise the trimmed
substring between them. -/
def extractJsonString (planText : String) : Except JsError String :=
  let start := indexOf planText startMarker
  let endIndex := indexOf planText endMarker
  if start = -1 || endIndex = -1 then
    .error (JsError.mkError "Response does not contain the expected JSON markers.")
  else
    .ok (trim (substring planText (start + startMarker.length) endIndex))

/-- The validation and the `switch` that prepares the confirmation message (the
same text in both declarations of `handleSendAction`): the confirmation
message, or the thrown error. Every `${...}` of the template literals goes
through ToString, which throws on a value it cannot convert. -/
def validatePlan (plan : JSVal) : Except JsError String := do
  let action ← plan.getProp "action"
  if !action.truthy then
    throw (JsError.mkError "Invalid plan structure received from LLM.")
  let details ← plan.getProp "details"
  if !details.truthy then
    throw (JsError.mkError "Invalid plan structure received from LLM.")
  let actionText ← action.toStr
  let confirmationMessage := "Planned Action: " ++ actionText ++ "\n"
  match action with
  | .str label =>
      if label = "URL change" then do
        let url ← details.getProp "url"
        let urlText ← url.toStr
        pure (confirmationMessage ++ "New URL: " ++ urlText)
      else if label = "button_click" then do
        let selector ← details.getProp "selector"
        let selectorText ← selector.toStr
        pure (confirmationMessage ++ "Selector: " ++ selectorText)
      else if label = "input_text" then do
        let selector ← details.getProp "selector"
        let selectorText ← selector.toStr
        let text ← details.getProp "text"
        let textText ← text.toStr
        pure (confirmationMessage ++ "Selector: " ++ selectorText ++ "\nText: " ++ textText)
      else throw (JsError.mkError "Unknown action type received.")
  | _ => throw (JsError.mkError "Unknown action type received.")

/-! ## Plan executor (`content.js`, the `executePlan` message handler) -/

/-- The page as the executor sees it, as the answers of the platform to the
executor's calls; each call may throw. `querySelector` throws on a selector it
cannot parse, returns `none` for `null` and otherwise the handle of the first
matching element. -/
structure Document where
  querySelector : JSVal → Except JsError (Option Nat)
  /-- The setter of `window.location.href`; it throws on a value that does not
  parse as a URL. -/
  setLocationHref : JSVal → Except JsError Unit
  /-- The call `element.click()`; it throws when the element has no `click`
  method. -/
  click : Nat → Except JsError Unit
  /-- The setter of `element.value`; it throws on an element that refuses the
  value. -/
  setValue : Nat → String → Except JsError Unit
  /-- The call `element.dispatchEvent(new Event('input', ...))`. -/
  dispatchInput : Nat → Except JsError Unit

/-- The operations the executor performs on the page, in program order; a call
that threw is not recorded, the lookup apart. -/
inductive DomOp where
  | setLocationHref (value : JSVal)
  | querySelector (selector : JSVal)
  | click (element : Nat)
  | setValue (element : Nat) (text : String)
  | dispatchInput (element : Nat)
deriving Repr

/-- The object passed to `sendResponse`. -/
structure ExecResponse where
  status : String
  message : Option String
deriving DecidableEq, Repr

/-- The method call `plan.action.toLowerCase()` on an arbitrary value. -/
def callToLowerCase (action : JSVal) : Except JsError String :=
  match action with
  | .str s => .ok (toLowerCase s)
  | .undefined =>
      .error ⟨"TypeError", "Cannot read properties of undefined (reading 'toLowerCase')"⟩
  | .null => .error ⟨"TypeError", "Cannot read properties of null (reading 'toLowerCase')"⟩
  | _ => .error ⟨"TypeError", "plan.action.toLowerCase is not a function"⟩

/-- The `case 'url change'` branch. -/
def executeUrlChange (doc : Document) (plan : JSVal) : List DomOp × Except JsError Unit :=
  match plan.getProp "details" >>= fun d => d.getProp "url" with
  | .error e => ([], .error e)
  | .ok url =>
      if url.truthy then
        match doc.setLocationHref url with
        | .error e => ([], .error e)
        | .ok () => ([.setLocationHref url], .ok ())
      else ([], .error (JsError.mkError "URL is missing in the plan."))

/-- The error thrown by `throw new Error(prefix + value)` inside a template
literal: the conversion of `value` may throw first. -/
def templateError (pre : String) (value : JSVal) : JsError :=
  match value.toStr with
  | .ok text => JsError.mkError (pre ++ text)
  | .error e => e

/-- The `case 'button_click'` branch. -/
def executeButtonClick (doc : Document) (plan : JSVal) : List DomOp × Except JsError Unit :=
  match plan.getProp "details" >>= fun d => d.getProp "selector" with
  | .error e => ([], .error e)
  | .ok selector =>
      if selector.truthy then
        match doc.querySelector selector with
        | .error e => ([.querySelector selector], .error e)
        | .ok (some button) =>
            match doc.click button with
            | .error e => ([.querySelector selector], .error e)
            | .ok () => ([.querySelector selector, .click button], .ok ())
        | .ok none =>
            ([.querySelector selector],
              .error (templateError "No element found with selector: " selector))
      else ([], .error (JsError.mkError "Selector is missing in the plan."))

/-- The `case 'input_text'` branch. -/
def executeInputText (doc : Document) (plan : JSVal) : List DomOp × Except JsError Unit :=
  match plan.getProp "details" >>= fun d => d.getProp "selector" with
  | .error e => ([], .error e)
  | .ok selector =>
      if selector.truthy then
        match plan.getProp "details" >>= fun d => d.getProp "text" with
        | .error e => ([], .error e)
        | .ok (.str text) =>
            match doc.querySelector selector with
            | .error e => ([.querySelector selector], .error e)
            | .ok (some input) =>
                match doc.setValue input text with
                | .error e => ([.querySelector selector], .error e)
                | .ok () =>
                    match doc.dispatchInput input with
                    | .error e => ([.querySelector selector, .setValue input text], .error e)
                    | .ok () =>
                        ([.querySelector selector, .setValue input text, .dispatchInput input],
                          .ok ())
            | .ok none =>
                ([.querySelector selector],
                  .error (templateError "No input found with selector: " selector))
        | .ok _ => ([], .error (JsError.mkError "Selector or text is missing in the plan."))
      else ([], .error (JsError.mkError "Selector or text is missing in the plan."))

/-- The body of the `try` block: the `switch` on `plan.action.toLowerCase()`. -/
def executeSwitch (doc : Document) (plan : JSVal) : List DomOp × Except JsError Unit :=
  match plan.getProp "action" with
  | .error e => ([], .error e)
  | .ok action =>
      match callToLowerCase action with
      | .error e => ([], .error e)
      | .ok lowered =>
          if lowered = "url change" then executeUrlChange doc plan
          else if lowered = "button_click" then executeButtonClick doc plan
          else if lowered = "input_text" then executeInputText doc plan
          else ([], .error (templateError "Unknown action type: " action))

/-- The `executePlan` handler: the operations performed on the page and the
responses passed to `sendResponse`, in order. -/
def executePlan (doc : Document) (plan : JSVal) : List DomOp × List ExecResponse :=
  match executeSwitch doc plan with
  | (ops, .ok ()) => (ops, [{ status := "success", message := none }])
  | (ops, .error e) => (ops, [{ status := "error", message := some e.message }])

/-! ## The popup's pipeline after the completion request (`popup.js` `handleSendAction`)

`popup.js` declares `handleSendAction` twice; a later function declaration
replaces an earlier one, so the second is the one the handlers run. The two
agree up to the confirmation dialog and differ in where `saveToHistory` is
called. -/

/-- What the popup does that a user or another component can observe. -/
inductive PopupEvent where
  | jsonParse (text : String)
  | alert (message : String)
  | confirm (message : String)
  | executePlanSent (plan : JSVal)
  | saveToHistoryCalled (prompt : String) (plan : JSVal)
  | updateHistorySent
deriving Repr

/-- The platform's answers to the popup's calls. -/
structure SendEnv where
  /-- `JSON.parse`; an error carries `parseError.message`. -/
  parse : String → Except String JSVal
  /-- The answer of the `confirm` dialog. -/
  confirmAnswer : Bool
  /-- The first tab returned by `chrome.tabs.query`, if any. -/
  activeTab : Option Nat
  /-- What the `sendMessage` callback receives for the plan sent: the message of
  `chrome.runtime.lastError`, or the content script's response. -/
  reply : JSVal → Except String ExecResponse
  /-- `new Date().toISOString()` inside `saveToHistory`. -/
  now : String
  /-- `chrome.runtime.lastError` of the history write, if it failed. -/
  storageError : Option String

/-- The popup after `handleSendAction` and its callbacks have run. -/
structure PopupState where
  /-- `responseElement.textContent`. -/
  responseText : String
  storage : Storage
  events : List PopupEvent
deriving Repr

/-- The text `responseElement.textContent` gets in the `sendMessage` callback. -/
def replyText (reply : Except String ExecResponse) : String :=
  match reply with
  | .error lastError => "Error: " ++ lastError
  | .ok response =>
      if response.status = "success" then "Plan executed successfully."
      else
        match response.message with
        | some m => if m != "" then "Error: " ++ m else "Error: Unknown error."
        | none => "Error: Unknown error."

/-- The text of the `confirm` dialog. -/
def confirmText (confirmationMessage : String) : String :=
  "The following action will be executed:\n\n" ++ confirmationMessage ++
    "\n\nDo you want to proceed?"

/-- The effective (second) declaration of `handleSendAction`, from the marker
extraction on: `planText` is the trimmed completion text and `st` the storage
when it runs. A thrown error ends in the outer `catch`, which writes
`Error: <message>`. The history `alert` inside `saveToHistory` is left out. -/
def handleSendAction (env : SendEnv) (st : Storage) (prompt planText : String) : PopupState :=
  match extractJsonString planText with
  | .error e => { responseText := "Error: " ++ e.message, storage := st, events := [] }
  | .ok jsonString =>
    match env.parse jsonString with
    | .error parseMessage =>
        { responseText := "Error: " ++ parseMessage, storage := st,
          events := [.jsonParse jsonString,
            .alert ("Failed to parse the LLM response as JSON. " ++
              "Please ensure the prompt yields a valid JSON.")] }
    | .ok plan =>
      match validatePlan plan with
      | .error e =>
          { responseText := "Error: " ++ e.message, storage := st,
            events := [.jsonParse jsonString] }
      | .ok confirmationMessage =>
        if env.confirmAnswer then
          match env.activeTab with
          | none =>
              { responseText := "Error: Cannot read properties of undefined (reading 'id')",
                storage := st,
                events := [.jsonParse jsonString, .confirm (confirmText confirmationMessage)] }
          | some _ =>
              { responseText := replyText (env.reply plan),
                storage := (saveToHistory st prompt plan env.now env.storageError).1,
                events := [.jsonParse jsonString, .confirm (confirmText confirmationMessage),
                  .executePlanSent plan, .saveToHistoryCalled prompt plan] }
        else
          { responseText := "Action canceled by the user.", storage := st,
            events := [.jsonParse jsonString, .confirm (confirmText confirmationMessage)] }

/-- The first declaration of `handleSendAction` (replaced by the second), from
the marker extraction on: `saveToHistory` and the `updateHistory` message sit
in the success branch of the `sendMessage` callback. -/
def handleSendActionFirst (env : SendEnv) (st : Storage) (prompt planText : String) :
    PopupState :=
  match extractJsonString planText with
  | .error e => { responseText := "Error: " ++ e.message, storage := st, events := [] }
  | .ok jsonString =>
    match env.parse jsonString with
    | .error parseMessage =>
        { responseText := "Error: " ++ parseMessage, storage := st,
          events := [.jsonParse jsonString,
            .alert ("Failed to parse the LLM response as JSON. " ++
              "Please ensure the prompt yields a valid JSON.")] }
    | .ok plan =>
      match validatePlan plan with
      | .error e =>
          { responseText := "Error: " ++ e.message, storage := st,
            events := [.jsonParse jsonString] }
      | .ok confirmationMessage =>
        if env.confirmAnswer then
          match env.activeTab with
          | none =>
              { responseText := "Error: Cannot read properties of undefined (reading 'id')",
                storage := st,
                events := [.jsonParse jsonString, .confirm (confirmText confirmationMessage)] }
          | some _ =>
              match env.reply plan with
              | .ok response =>
                  if response.status = "success" then
                    match saveToHistory st prompt plan env.now env.storageError with
                    | (st', .ok ()) =>
                        { responseText := "Plan executed successfully.", storage := st',
                          events := [.jsonParse jsonString,
                            .confirm (confirmText confirmationMessage),
                            .executePlanSent plan, .saveToHistoryCalled prompt plan,
                            .updateHistorySent] }
                    | (st', .error _) =>
                        { responseText := "Plan executed successfully.", storage := st',
                          events := [.jsonParse jsonString,
                            .confirm (confirmText confirmationMessage),
                            .executePlanSent plan, .saveToHistoryCalled prompt plan] }
                  else
                    { responseText := replyText (.ok response), storage := st,
                      events := [.jsonParse jsonString,
                        .confirm (confirmText confirmationMessage), .executePlanSent plan] }
              | .error lastError =>
                  { responseText := replyText (.error lastError), storage := st,
                    events := [.jsonParse jsonString,
                      .confirm (confirmText confirmationMessage), .executePlanSent plan] }
        else
          { responseText := "Action canceled by the user.", storage := st,
            events := [.jsonParse jsonString, .confirm (confirmText confirmationMessage)] }

/-- One acknowledged `saveToHistory` call whose arguments and clock reading are
the fields of `e`. -/
def appendEntry (st : Storage) (e : HistoryEntry) : Storage :=
  (saveToHistory st e.prompt e.response e.timestamp none).1

/-- A run of acknowledged `saveToHistory` calls, first call first. -/
def appendAll (st : Storage) (es : List HistoryEntry) : Storage :=
  es.foldl appendEntry st

/-- The 101 entries used to exercise the ledger: entry `i` carries prompt `i`. -/
def sampleEntries : List HistoryEntry :=
  (List.range 101).map fun i =>
    { prompt := toString i, response := .null, timestamp := toString i }

/-- The value bound to `plan` in `handleSendAction` (both declarations): marker
extraction, then `JSON.parse` of the extracted text. An error is the message
that ends up after `Error: ` in the response area. -/
def parsePlanText (parse : String → Except String JSVal) (planText : String) :
    Except String JSVal :=
  match extractJsonString planText with
  | .error e => .error e.message
  | .ok jsonString => parse jsonString

/-- A stand-in for `JSON.parse` used in examples: it accepts the text of the
empty object and rejects every other text, which is what `JSON.parse` does on
the texts the examples apply it to. -/
def parseEmptyObject (text : String) : Except String JSVal :=
  if text = "{}" then .ok (.obj []) else .error "Unexpected token"

/-- A page with a button (`#submit-button`, element 7), an SVG icon (`#icon`,
element 3, which has no `click` method) and a file input (`#upload`, element
4, whose value can only be set to the empty string); no other selector
matches. The location setter refuses `http://`, which is not a URL. -/
def sampleDocument : Document :=
  { querySelector := fun selector =>
      match selector with
      | .str s =>
          if s = "#submit-button" then .ok (some 7)
          else if s = "#icon" then .ok (some 3)
          else if s = "#upload" then .ok (some 4)
          else .ok none
      | _ => .ok none
    setLocationHref := fun value =>
      match value.toStr with
      | .error e => .error e
      | .ok s =>
          if s = "http://" then
            .error ⟨"SyntaxError",
              "Failed to set the 'href' property on 'Location': 'http://' is an invalid URL."⟩
          else .ok ()
    click := fun element =>
      if element = 3 then .error ⟨"TypeError", "button.click is not a function"⟩ else .ok ()
    setValue := fun element text =>
      if element = 4 ∧ text ≠ "" then
        .error ⟨"InvalidStateError",
          "Failed to set the 'value' property on 'HTMLInputElement': This input element " ++
          "accepts a filename, which may only be programmatically set to the empty string."⟩
      else .ok ()
    dispatchInput := fun _ => .ok () }

/-- Platform answers used in examples: the user confirms, a tab is active, the
content script runs the plan on `sampleDocument`, the history write completes. -/
def sampleEnv : SendEnv :=
  { parse := parseEmptyObject
    confirmAnswer := true
    activeTab := some 1
    reply := fun plan => .ok ((executePlan sampleDocument plan).2.headD ⟨"error", none⟩)
    now := "2025-01-01T00:00:00.000Z"
    storageError := none }

/-- The wire shape `{ "action": label, "details": { ...fields } }` of a plan. -/
def wirePlan (label : String) (fields : List (String × JSVal)) : JSVal :=
  .obj [("action", .str label), ("details", .obj fields)]

/-- The number of `click()` calls among the operations performed on the page. -/
def clickCount (ops : List DomOp) : Nat :=
  (ops.filter fun op => match op with
    | .click _ => true
    | _ => false).length

/-- The three action labels of the plan wire shape. -/
def actionLabels : List String := ["URL change", "button_click", "input_text"]

/-- The acceptance condition in the specification's words (Plan data model and
Plan Validator): every required field of the label is present and correctly
typed, that is a non-empty string, `text` being any string. -/
def specRequiredFields (label : String) (fields : List (String × JSVal)) : Bool :=
  let nonEmptyString : JSVal → Bool := fun v =>
    match v with
    | .str s => s != ""
    | _ => false
  if label = "URL change" then nonEmptyString (lookupField "url" fields)
  else if label = "button_click" then nonEmptyString (lookupField "selector" fields)
  else if label = "input_text" then
    nonEmptyString (lookupField "selector" fields) && (lookupField "text" fields).isString
  else false

/-- The `case` labels of the executor's `switch`. -/
def executorLabels : List String := ["url change", "button_click", "input_text"]

/-- The operations that change the page or activate an element; a
`querySelector` lookup is not one. -/
def isPageAction : DomOp → Bool
  | .setLocationHref _ => true
  | .click _ => true
  | .setValue _ _ => true
  | .dispatchInput _ => true
  | .querySelector _ => false

/-- The `onMessage` listener of `content.js` on a request object whose `action`
is `executePlan`: the plan is `request.plan`, `undefined` when absent. -/
def executePlanRequest (doc : Document) (request : List (String × JSVal)) :
    List DomOp × List ExecResponse :=
  executePlan doc (lookupField "plan" request)

/-! ## Credential, completion request and the whole of `handleSendAction` -/

/-- The call `chrome.storage.local.set({ mistralApiKey: value }, cb)`; the slot
is replaced when the write completed. -/
def Storage.setApiKey (st : Storage) (value : String) (lastError : Option String) : Storage :=
  match lastError with
  | none => { st with mistralApiKey := some value }
  | some _ => st

/-- The function `promptForApiKey`: `userApiKey` is what the `prompt` dialog
returned (`none` for `null`). The storage afterwards and the alerts shown. -/
def promptForApiKey (st : Storage) (userApiKey : Option String) (lastError : Option String) :
    Storage × List String :=
  match userApiKey with
  | some key =>
      if key != "" then (st.setApiKey key lastError, [])
      else (st, ["API key is required to use this extension."])
  | none => (st, ["API key is required to use this extension."])

/-- The credential lookup of the effective (second) `handleSendAction`:
`localStorage.getItem('mistralApiKey')`, given as `item`, then the `!apiKey`
test. -/
def readApiKey (item : Option String) : Except JsError String :=
  match item with
  | some key => if key != "" then .ok key else .error (JsError.mkError "API key not found")
  | none => .error (JsError.mkError "API key not found")

/-- The credential lookup of the first `handleSendAction` (and of
`analyzePage`): `chrome.storage.local.get(['mistralApiKey'])`, then the
`!apiKey` test. -/
def readApiKeyFirst (st : Storage) : Except JsError String :=
  match st.mistralApiKey with
  | some key => if key != "" then .ok key else .error (JsError.mkError "API key not found")
  | none => .error (JsError.mkError "API key not found")

/-- The tail shared by both prompt templates, from `JSON Format:` to the last
`tags.`. -/
def jsonFormatText : String :=
  "JSON Format:\n\x7b\n    \"action\": \"URL change\" | \"button_click\" | \"input_text\",\n" ++
  "    \"details\": \x7b\n        // For \"URL change\":\n" ++
  "        \"url\": \"https://example.com\"\n\n        // For \"button_click\":\n" ++
  "        \"selector\": \"#submit-button\"\n\n        // For \"input_text\":\n" ++
  "        \"selector\": \"#username\",\n        \"text\": \"user_input\"\n    \x7d\n\x7d\n\n" ++
  "Ensure there is no additional text outside the <START_JSON> and <END_JSON> tags."

/-- The head shared by both prompt templates. -/
def promptHead : String :=
  "You are a helpful assistant. Based on the user's instruction, create a JSON plan for " ++
  "the next action. Respond **ONLY** with the JSON object enclosed between <START_JSON> " ++
  "and <END_JSON> tags."

/-- The template literal `llmPrompt` of the effective (second) declaration. -/
def llmPrompt (prompt : String) : String :=
  promptHead ++ "\n\nUser Instruction: " ++ prompt ++ "\n\n" ++ jsonFormatText ++ "\n"

/-- The template literal `llmPrompt` of the first declaration. -/
def llmPromptFirst (prompt : String) : String :=
  promptHead ++ "\n\n\nUser Instruction: " ++ prompt ++ "\n\n\n" ++ jsonFormatText

/-- The arguments of the `fetch` call. -/
structure CompletionRequest where
  url : String
  method : String
  contentType : String
  accept : String
  authorization : String
  model : String
  role : String
  content : String
deriving DecidableEq, Repr

/-- The `fetch` arguments built by `handleSendAction` (both declarations) for a
credential and a prompt text. -/
def completionRequest (apiKey content : String) : CompletionRequest :=
  { url := "https://api.mistral.ai/v1/chat/completions"
    method := "POST"
    contentType := "application/json"
    accept := "application/json"
    authorization := "Bearer " ++ apiKey
    model := "pixtral-large-latest"
    role := "user"
    content := content }

/-- What the program reads of a `fetch` response: `ok`, `status`, `statusText`
and the outcome of `json()`. -/
structure FetchResponse where
  ok : Bool
  status : Nat
  statusText : String
  json : Except JsError JSVal

/-- The read `v[0]`: a `TypeError` on `undefined` and `null`, the first item of
an array, the own property `0` of an object, the first character of a string,
`undefined` otherwise. -/
def JSVal.getIndex0 (v : JSVal) : Except JsError JSVal :=
  match v with
  | .undefined => .error ⟨"TypeError", "Cannot read properties of undefined (reading '0')"⟩
  | .null => .error ⟨"TypeError", "Cannot read properties of null (reading '0')"⟩
  | .arr (first :: _) => .ok first
  | .obj fields => .ok (lookupField "0" fields)
  | .str s =>
      match s.data with
      | c :: _ => .ok (.str ⟨[c]⟩)
      | [] => .ok .undefined
  | _ => .ok .undefined

/-- The method call `content.trim()` on an arbitrary value. -/
def callTrim (content : JSVal) : Except JsError String :=
  match content with
  | .str s => .ok (trim s)
  | .undefined => .error ⟨"TypeError", "Cannot read properties of undefined (reading 'trim')"⟩
  | .null => .error ⟨"TypeError", "Cannot read properties of null (reading 'trim')"⟩
  | _ => .error ⟨"TypeError", "data.choices[0].message.content.trim is not a function"⟩

/-- The expression `data.choices[0].message.content.trim()`; the property names
`choices`, `message` and `content` are read like the plan's. -/
def completionText (data : JSVal) : Except JsError String := do
  let choices ← data.getProp "choices"
  let first ← choices.getIndex0
  let message ← first.getProp "message"
  let content ← message.getProp "content"
  callTrim content

/-- The platform's answers to a whole run of `handleSendAction`. -/
structure RunEnv where
  /-- The value of the `prompt` textarea. -/
  promptValue : String
  /-- `localStorage.getItem('mistralApiKey')`. -/
  localStorageKey : Option String
  /-- `fetch`; an error is a rejected promise. -/
  fetch : CompletionRequest → Except JsError FetchResponse
  /-- The answers to the calls after the completion request. -/
  send : SendEnv

/-- The steps of `handleSendAction` (both declarations) from the `fetch` call
to `planText`: the `response.ok` test, `response.json()` and the read of the
completion text; the result is `planText` or the thrown error. -/
def requestPlanText (fetch : CompletionRequest → Except JsError FetchResponse)
    (request : CompletionRequest) : Except JsError String :=
  match fetch request with
  | .error e => .error e
  | .ok response =>
      if !response.ok then
        .error (JsError.mkError
          ("API error: " ++ toString response.status ++ " " ++ response.statusText))
      else response.json >>= completionText

/-- The whole of the effective (second) declaration of `handleSendAction`:
`shown` is the text of the response area before the call; the result is the
list of completion requests sent and the popup afterwards. -/
def runHandleSendAction (env : RunEnv) (st : Storage) (shown : String) :
    List CompletionRequest × PopupState :=
  if env.promptValue = "" then
    ([], { responseText := shown, storage := st, events := [.alert "Please enter a prompt."] })
  else
    match readApiKey env.localStorageKey with
    | .error e => ([], { responseText := "Error: " ++ e.message, storage := st, events := [] })
    | .ok apiKey =>
        let request := completionRequest apiKey (llmPrompt env.promptValue)
        match requestPlanText env.fetch request with
        | .error e =>
            ([request], { responseText := "Error: " ++ e.message, storage := st, events := [] })
        | .ok planText => ([request], handleSendAction env.send st env.promptValue planText)

/-- The whole of the first declaration of `handleSendAction` (replaced by the
second). -/
def runHandleSendActionFirst (env : RunEnv) (st : Storage) (shown : String) :
    List CompletionRequest × PopupState :=
  if env.promptValue = "" then
    ([], { responseText := shown, storage := st, events := [.alert "Please enter a prompt."] })
  else
    match readApiKeyFirst st with
    | .error e => ([], { responseText := "Error: " ++ e.message, storage := st, events := [] })
    | .ok apiKey =>
        let request := completionRequest apiKey (llmPromptFirst env.promptValue)
        match requestPlanText env.fetch request with
        | .error e =>
            ([request], { responseText := "Error: " ++ e.message, storage := st, events := [] })
        | .ok planText =>
            ([request], handleSendActionFirst env.send st env.promptValue planText)

/-- A click plan whose selector matches nothing on `sampleDocument`. -/
def clickMissingPlan : JSVal := wirePlan "button_click" [("selector", .str "#missing")]

/-- The JSON text of `clickMissingPlan`. -/
def clickMissingJson : String :=
  "\x7b\"action\":\"button_click\",\"details\":\x7b\"selector\":\"#missing\"\x7d\x7d"

/-- A stand-in for `JSON.parse` used in examples: it parses the text
`clickMissingJson` as `JSON.parse` does and rejects every other text. -/
def parseClickMissing (text : String) : Except String JSVal :=
  if text = clickMissingJson then .ok clickMissingPlan else .error "Unexpected token"

/-- The answers of `sampleEnv` with `parseClickMissing` as the parser. -/
def clickMissingEnv : SendEnv := { sampleEnv with parse := parseClickMissing }

/-- A completion endpoint that answers every request with `clickMissingJson`
between the markers. -/
def sampleFetch (_request : CompletionRequest) : Except JsError FetchResponse :=
  .ok { ok := true, status := 200, statusText := "OK",
        json := .ok (.obj [("choices", .arr [.obj [("message",
          .obj [("content", .str (startMarker ++ clickMissingJson ++ endMarker))])]])]) }

/-! ## Screenshot stitching (`popup.js` `captureFullPageScreenshot`, `stitchScreenshots`) -/

/-- A loaded capture: its size and its pixels by row and column. The pixels of
a capture are opaque. -/
structure Image (α : Type) where
  width : Nat
  height : Nat
  pixel : Nat → Nat → α

/-- A canvas: its size and, by row and column, the pixel painted there, `none`
where nothing was painted. -/
structure Canvas (α : Type) where
  width : Nat
  height : Nat
  pixel : Nat → Nat → Option α

/-- The canvas after `canvas.width = width; canvas.height = height`. -/
def Canvas.blank {α : Type} (width height : Nat) : Canvas α :=
  { width := width, height := height, pixel := fun _ _ => none }

/-- The call `ctx.drawImage(img, 0, y)`: the image replaces the canvas pixels
under it, clipped to the canvas. -/
def drawImage {α : Type} (canvas : Canvas α) (img : Image α) (y : Nat) : Canvas α :=
  { canvas with
    pixel := fun row col =>
      if y ≤ row ∧ row < y + img.height ∧ col < img.width ∧
          row < canvas.height ∧ col < canvas.width then
        some (img.pixel (row - y) col)
      else canvas.pixel row col }

/-- An element of the `screenshots` array of `captureFullPageScreenshot`. -/
structure Screenshot (α : Type) where
  image : Image α
  position : Nat

/-- The stitching step of the `messageHandler` in `captureFullPageScreenshot`,
run when all captures have arrived: the canvas takes the width of the first
capture and the page `height`, then `for (const shot of screenshots)` draws
each capture at its recorded position. Reading `screenshots[0].image` of an
empty array throws. -/
def stitchCaptures {α : Type} (height : Nat) (screenshots : List (Screenshot α)) :
    Except JsError (Canvas α) :=
  match screenshots with
  | [] => .error ⟨"TypeError", "Cannot read properties of undefined (reading 'image')"⟩
  | first :: _ =>
      .ok (screenshots.foldl (fun canvas shot => drawImage canvas shot.image shot.position)
        (Canvas.blank first.image.width height))

/-- The canvas built by `stitchScreenshots(screenshots)`: `innerHeight` is
`window.innerHeight`, the canvas is `innerHeight * screenshots.length` high and
the loop draws `screenshots[i]` at `i * innerHeight`. -/
def stitchScreenshots {α : Type} (innerHeight : Nat) (screenshots : List (Image α)) :
    Except JsError (Canvas α) :=
  match screenshots with
  | [] => .error ⟨"TypeError", "Cannot read properties of undefined (reading 'image')"⟩
  | first :: _ =>
      .ok ((List.range screenshots.length).foldl
        (fun canvas i =>
          match screenshots[i]? with
          | some img => drawImage canvas img (i * innerHeight)
          | none => canvas)
        (Canvas.blank first.width (innerHeight * screenshots.length)))

/-- A capture of width 2 and height 800 whose every pixel is the number `k`. -/
def flatImage (k : Nat) : Image Nat := { width := 2, height := 800, pixel := fun _ _ => k }

/-! ## History store: theorems -/

theorem take_append_take {α : Type} (n : Nat) (a b : List α) :
    (a ++ b.take n).take n = (a ++ b).take n := by
  rw [List.take_append_eq_append_take, List.take_append_eq_append_take, List.take_take]
  congr 2
  omega

theorem getHistory_appendEntry (st : Storage) (e : HistoryEntry) :
    getHistory (appendEntry st e) = (e :: getHistory st).take 100 := rfl

theorem getHistory_appendAll (es : List HistoryEntry) (st : Storage)
    (hst : (getHistory st).length ≤ 100) :
    getHistory (appendAll st es) = (es.reverse ++ getHistory st).take 100 := by
  induction es generalizing st with
  | nil => simp [appendAll, List.take_of_length_le hst]
  | cons e es ih =>
      have hlen : (getHistory (appendEntry st e)).length ≤ 100 := by
        rw [getHistory_appendEntry]; simp
      have := ih (appendEntry st e) hlen
      simp only [appendAll, List.foldl_cons] at this ⊢
      rw [this, getHistory_appendEntry, take_append_take]
      simp

/-- C2. Starting from an empty ledger, 101 acknowledged `saveToHistory` calls
leave exactly 100 entries: the entries of calls 2 to 101, newest first, the
entry of the first call being evicted. -/
theorem append_101_keeps_newest_100 (st : Storage) (es : List HistoryEntry)
    (hempty : getHistory st = []) (hlen : es.length = 101) :
    getHistory (appendAll st es) = es.tail.reverse ∧
    (getHistory (appendAll st es)).length = 100 := by
  have h := getHistory_appendAll es st (by simp [hempty])
  rw [hempty, List.append_nil] at h
  have h2 : es.reverse.take 100 = es.tail.reverse := by
    cases es with
    | nil => simp at hlen
    | cons e rest =>
        have hr : rest.length = 100 := by simpa using hlen
        simp [List.take_append_eq_append_take, hr]
  rw [h, h2]
  refine ⟨rfl, ?_⟩
  simp [hlen]

/-- Witness of C2 on the 101 sample entries, from the unset slot. -/
theorem append_101_keeps_newest_100_witness :
    getHistory ⟨none, none⟩ = [] ∧ sampleEntries.length = 101 ∧
    getHistory (appendAll ⟨none, none⟩ sampleEntries) = sampleEntries.tail.reverse ∧
    (getHistory (appendAll ⟨none, none⟩ sampleEntries)).length = 100 :=
  ⟨rfl, by simp [sampleEntries],
    append_101_keeps_newest_100 ⟨none, none⟩ sampleEntries rfl (by simp [sampleEntries])⟩

/-- C3. After an acknowledged `saveToHistory` call, the first element of the
sequence the `getHistory` handler returns is the entry that was appended, for
every prior storage. -/
theorem getHistory_head_after_append (st : Storage) (prompt : String) (response : JSVal)
    (now : String) (lastError : Option String)
    (hack : (saveToHistory st prompt response now lastError).2 = .ok ()) :
    (getHistory (saveToHistory st prompt response now lastError).1).head? =
      some { prompt := prompt, response := response, timestamp := now } := by
  cases lastError with
  | none => rfl
  | some e => simp [saveToHistory] at hack

/-- Witness of C3 on a ledger that already holds one entry. -/
theorem getHistory_head_after_append_witness :
    (saveToHistory ⟨some [⟨"old", .null, "t0"⟩], none⟩ "open example" (.str "p") "t1" none).2
      = .ok () ∧
    (getHistory (saveToHistory ⟨some [⟨"old", .null, "t0"⟩], none⟩
      "open example" (.str "p") "t1" none).1).head? =
      some { prompt := "open example", response := .str "p", timestamp := "t1" } :=
  ⟨rfl, getHistory_head_after_append _ _ _ _ none rfl⟩

/-- C4. After the confirmed clear-history action whose write completed, the slot
holds the empty list (it is not deleted) and the `getHistory` handler returns
the empty sequence; the handler also returns the empty sequence when the slot
was never populated. -/
theorem getHistory_after_clear (st : Storage) (key : Option String) :
    (clearHistory st true none).llmHistory = some [] ∧
    getHistory (clearHistory st true none) = [] ∧
    getHistory { llmHistory := none, mistralApiKey := key } = [] :=
  ⟨rfl, rfl, rfl⟩

/-- C1. For every stored ledger (empty when the slot is unset) and every prompt
and plan, `saveToHistory` hands to the storage exactly the first 100 elements of
the new entry followed by the old ledger; when the write completes that list is
the slot's content. The new entry is at the front, the old entries follow in
their old order, and there are at most 100 entries. -/
theorem saveToHistory_writes_prefix (st : Storage) (prompt : String) (response : JSVal)
    (now : String) :
    let entry : HistoryEntry := { prompt := prompt, response := response, timestamp := now }
    let written := trimmedHistory st.llmHistory prompt response now
    written = (entry :: st.llmHistory.getD []).take 100 ∧
    (saveToHistory st prompt response now none).1.llmHistory = some written ∧
    written.head? = some entry ∧
    written.tail = (st.llmHistory.getD []).take 99 ∧
    written.length ≤ 100 := by
  refine ⟨rfl, rfl, rfl, rfl, ?_⟩
  simp [trimmedHistory]


/-! ## Plan extraction: theorems -/

theorem indexOfFrom_eq_neg_one_iff (needle hay : List Char) (i : Nat) :
    indexOfFrom needle hay i = -1 ↔ ¬ needle <:+: hay := by
  induction hay generalizing i with
  | nil =>
      simp only [indexOfFrom, List.isPrefixOf_iff_prefix, List.infix_nil, List.prefix_nil]
      by_cases h : needle = []
      · simp [h]
      · simp [h]
  | cons c cs ih =>
      simp only [indexOfFrom, List.isPrefixOf_iff_prefix, List.infix_cons_iff]
      by_cases h : needle <+: c :: cs
      · simp [h]
      · simp [h, ih]

theorem not_prefix_append_self (c : Char) (rest a b : List Char) (hc : c ∉ rest)
    (ha : a ≠ []) (hno : ¬ (c :: rest) <:+: a) :
    ¬ (c :: rest) <+: a ++ ((c :: rest) ++ b) := by
  intro hpre
  by_cases hlen : (c :: rest).length ≤ a.length
  · exact hno (List.prefix_of_prefix_length_le hpre (List.prefix_append a _) hlen).isInfix
  · have hlt : a.length ≤ (c :: rest).length := by omega
    obtain ⟨t, ht⟩ := List.prefix_of_prefix_length_le (List.prefix_append a _) hpre hlt
    have hpre' : a ++ t <+: a ++ ((c :: rest) ++ b) := by rw [ht]; exact hpre
    rw [List.prefix_append_right_inj] at hpre'
    cases a with
    | nil => exact ha rfl
    | cons x a' =>
        cases t with
        | nil =>
            simp at ht
            have : (x :: a').length = (c :: rest).length := by rw [ht.1, ht.2]
            simp at hlen
            simp at this
            omega
        | cons y t' =>
            have hy : y = c := by
              simp only [List.cons_append, List.cons_prefix_cons] at hpre'
              exact hpre'.1
            simp only [List.cons_append, List.cons.injEq] at ht
            apply hc
            rw [← ht.2, hy]
            simp

theorem indexOfFrom_append_marker (c : Char) (rest a b : List Char) (i : Nat) (hc : c ∉ rest)
    (hno : ¬ (c :: rest) <:+: a) :
    indexOfFrom (c :: rest) (a ++ ((c :: rest) ++ b)) i = ((i + a.length : Nat) : Int) := by
  induction a generalizing i with
  | nil => simp [indexOfFrom]
  | cons x a' ih =>
      have hno' : ¬ (c :: rest) <:+: a' := fun h => hno ((List.infix_cons_iff).2 (Or.inr h))
      have hpre := not_prefix_append_self c rest (x :: a') b hc (by simp) hno
      simp only [List.cons_append] at hpre ⊢
      rw [indexOfFrom]
      simp only [List.isPrefixOf_iff_prefix, hpre, if_false]
      have hih := ih (i + 1) hno'
      simp only [List.cons_append] at hih
      rw [hih]
      simp only [List.length_cons]
      congr 1
      omega

theorem indexOf_marker (m pre rest : String) (c : Char) (r : List Char)
    (hm : m.data = c :: r) (hc : c ∉ r) (h : ¬ m.data <:+: pre.data) :
    indexOf (pre ++ m ++ rest) m = (pre.length : Int) := by
  unfold indexOf
  simp only [String.data_append, List.append_assoc]
  rw [hm] at h ⊢
  rw [indexOfFrom_append_marker c r pre.data rest.data 0 hc h]
  simp only [String.length, Nat.zero_add]

theorem substring_middle (a b c : String) :
    substring (a ++ b ++ c) (a.length : Int) ((a ++ b).length : Int) = b := by
  unfold substring clampIndex
  apply String.ext
  have hl : ∀ s : String, s.length = s.data.length := fun _ => rfl
  simp only [String.length_append, String.data_append, Int.toNat_ofNat, hl, List.length_append]
  have h1 : min a.data.length (a.data.length + b.data.length + c.data.length) = a.data.length := by
    omega
  have h2 : min (a.data.length + b.data.length) (a.data.length + b.data.length + c.data.length)
      = a.data.length + b.data.length := by omega
  rw [h1, h2]
  have h3 : min a.data.length (a.data.length + b.data.length) = a.data.length := by omega
  have h4 : max a.data.length (a.data.length + b.data.length) - a.data.length
      = b.data.length := by omega
  rw [h3, h4, List.append_assoc, List.drop_left, List.take_left]

theorem extractJsonString_between (pre j post : String)
    (hstart : ¬ startMarker.data <:+: pre.data)
    (hend : ¬ endMarker.data <:+: (pre ++ startMarker ++ j).data) :
    extractJsonString (pre ++ startMarker ++ j ++ endMarker ++ post) = .ok (trim j) := by
  have h1 : indexOf (pre ++ startMarker ++ j ++ endMarker ++ post) startMarker
      = (pre.length : Int) := by
    have := indexOf_marker startMarker pre (j ++ endMarker ++ post) '<' "START_JSON>".data
      rfl (by decide) hstart
    simpa only [String.append_assoc] using this
  have h2 : indexOf (pre ++ startMarker ++ j ++ endMarker ++ post) endMarker
      = ((pre ++ startMarker ++ j).length : Int) :=
    indexOf_marker endMarker (pre ++ startMarker ++ j) post '<' "END_JSON>".data
      rfl (by decide) hend
  have h3 : (pre.length : Int) + (startMarker.length : Int)
      = ((pre ++ startMarker).length : Int) := by
    rw [String.length_append]; push_cast; rfl
  have h4 : substring (pre ++ startMarker ++ j ++ endMarker ++ post)
      ((pre ++ startMarker).length : Int) ((pre ++ startMarker ++ j).length : Int) = j := by
    have := substring_middle (pre ++ startMarker) j (endMarker ++ post)
    simpa only [String.append_assoc] using this
  unfold extractJsonString
  simp only [h1, h2, h3, h4]
  have e1 : ¬ ((pre.length : Int) = -1) := by omega
  have e2 : ¬ (((pre ++ startMarker ++ j).length : Int) = -1) := by omega
  simp [e1, e2]
  omega

theorem parseEmptyObject_trim (s : String) (v : JSVal) (hs : parseEmptyObject s = .ok v) :
    parseEmptyObject (trim s) = .ok v := by
  unfold parseEmptyObject at hs
  split at hs
  · next heq => subst heq; exact hs
  · cases hs

/-- C5, the claim as stated, refuted: with `<END_JSON>` ahead of the embedded
JSON the text still has the shape `pre ++ <START_JSON> ++ j ++ <END_JSON> ++
post` with `j` valid, but `substring` swaps its arguments, the text handed to
`JSON.parse` is `<END_JSON><START_JSON>`, and no plan comes out. -/
theorem extract_then_parse_counterexample :
    ¬ (∀ (parse : String → Except String JSVal),
        (∀ s v, parse s = .ok v → parse (trim s) = .ok v) →
        ∀ (pre j post : String) (o : JSVal), parse j = .ok o →
          parsePlanText parse (pre ++ startMarker ++ j ++ endMarker ++ post) = .ok o) := by
  intro h
  have := h parseEmptyObject parseEmptyObject_trim "<END_JSON>" "{}" "" (.obj []) rfl
  have hval : parsePlanText parseEmptyObject
      ("<END_JSON>" ++ startMarker ++ "{}" ++ endMarker ++ "") = .error "Unexpected token" := by
    rfl
  rw [hval] at this
  cases this

/-- C5, amended. When `<START_JSON>` does not occur in `pre` and `<END_JSON>`
does not occur in `pre ++ <START_JSON> ++ j` (so the first occurrence of each
marker is the one that delimits `j`), the extraction yields `j` trimmed, and
`JSON.parse`, which accepts a trimmed valid text with the same result, yields
exactly the object `o` that `j` encodes. -/
theorem extract_then_parse (parse : String → Except String JSVal) (pre j post : String)
    (o : JSVal)
    (htrim : ∀ s v, parse s = .ok v → parse (trim s) = .ok v)
    (hstart : ¬ startMarker.data <:+: pre.data)
    (hend : ¬ endMarker.data <:+: (pre ++ startMarker ++ j).data)
    (hj : parse j = .ok o) :
    extractJsonString (pre ++ startMarker ++ j ++ endMarker ++ post) = .ok (trim j) ∧
    parsePlanText parse (pre ++ startMarker ++ j ++ endMarker ++ post) = .ok o := by
  have hx := extractJsonString_between pre j post hstart hend
  refine ⟨hx, ?_⟩
  unfold parsePlanText
  rw [hx]
  exact htrim j o hj

/-- Witness of the amended C5: a completion text with prose around the markers. -/
theorem extract_then_parse_witness :
    extractJsonString ("Plan: " ++ startMarker ++ "{}" ++ endMarker ++ " done") =
      .ok (trim "{}") ∧
    parsePlanText parseEmptyObject ("Plan: " ++ startMarker ++ "{}" ++ endMarker ++ " done") =
      .ok (.obj []) :=
  extract_then_parse parseEmptyObject "Plan: " "{}" " done" (.obj []) parseEmptyObject_trim
    (by decide) (by decide) rfl

theorem extractJsonString_missing (planText : String)
    (h : ¬ startMarker.data <:+: planText.data ∨ ¬ endMarker.data <:+: planText.data) :
    extractJsonString planText =
      .error (JsError.mkError "Response does not contain the expected JSON markers.") := by
  unfold extractJsonString indexOf
  rcases h with h | h
  · have := (indexOfFrom_eq_neg_one_iff startMarker.data planText.data 0).2 h
    simp [this]
  · have := (indexOfFrom_eq_neg_one_iff endMarker.data planText.data 0).2 h
    simp [this]

/-- C6. When `<START_JSON>` or `<END_JSON>` does not occur in the completion
text, `handleSendAction` (either declaration) ends with the response area
showing the format error, and nothing else happens: no `JSON.parse`, no
confirmation dialog, no `executePlan` message, no history write. -/
theorem missing_marker_is_format_error (env : SendEnv) (st : Storage)
    (prompt planText : String)
    (h : ¬ startMarker.data <:+: planText.data ∨ ¬ endMarker.data <:+: planText.data) :
    extractJsonString planText =
      .error (JsError.mkError "Response does not contain the expected JSON markers.") ∧
    handleSendAction env st prompt planText =
      { responseText := "Error: Response does not contain the expected JSON markers.",
        storage := st, events := [] } ∧
    handleSendActionFirst env st prompt planText =
      { responseText := "Error: Response does not contain the expected JSON markers.",
        storage := st, events := [] } := by
  have hx := extractJsonString_missing planText h
  refine ⟨hx, ?_, ?_⟩
  · unfold handleSendAction; rw [hx]; rfl
  · unfold handleSendActionFirst; rw [hx]; rfl

/-- Witness of C6: a completion that opens the JSON but never closes it. -/
theorem missing_marker_is_format_error_witness :
    (¬ startMarker.data <:+: "<START_JSON>{}".data ∨
      ¬ endMarker.data <:+: "<START_JSON>{}".data) ∧
    extractJsonString "<START_JSON>{}" =
      .error (JsError.mkError "Response does not contain the expected JSON markers.") ∧
    handleSendAction sampleEnv ⟨none, none⟩ "open example" "<START_JSON>{}" =
      { responseText := "Error: Response does not contain the expected JSON markers.",
        storage := ⟨none, none⟩, events := [] } ∧
    handleSendActionFirst sampleEnv ⟨none, none⟩ "open example" "<START_JSON>{}" =
      { responseText := "Error: Response does not contain the expected JSON markers.",
        storage := ⟨none, none⟩, events := [] } :=
  ⟨by decide,
    missing_marker_is_format_error sampleEnv ⟨none, none⟩ "open example" "<START_JSON>{}"
      (by decide)⟩

/-! ## History on success only, and the credential: theorems -/

theorem handleSendAction_declined (env : SendEnv) (st : Storage) (prompt planText : String)
    (hno : env.confirmAnswer = false) :
    (handleSendAction env st prompt planText).storage = st ∧
    (handleSendActionFirst env st prompt planText).storage = st := by
  constructor
  · unfold handleSendAction
    split
    · rfl
    · split
      · rfl
      · split
        · rfl
        · simp [hno]
  · unfold handleSendActionFirst
    split
    · rfl
    · split
      · rfl
      · split
        · rfl
        · simp [hno]

theorem handleSendActionFirst_keeps_history (env : SendEnv) (st : Storage)
    (prompt planText : String)
    (hfail : ∀ plan response, env.reply plan = .ok response → response.status ≠ "success") :
    (handleSendActionFirst env st prompt planText).storage = st := by
  unfold handleSendActionFirst
  split
  · rfl
  · split
    · rfl
    · split
      · rfl
      · split
        · split
          · rfl
          · split
            · next plan _ _ _ _ response hr =>
                have := hfail _ response hr
                simp [this]
            · rfl
        · rfl

/-- C13, the code at the failing input. The plan clicks `#missing`, which
matches nothing on `sampleDocument`; the user confirms. The executor answers
with an error, the response area shows it, and the effective `handleSendAction`
has nevertheless called `saveToHistory`: the ledger, empty before, holds the
entry. -/
theorem history_saved_despite_executor_error :
    clickMissingEnv.reply clickMissingPlan =
      .ok { status := "error", message := some "No element found with selector: #missing" } ∧
    (handleSendAction clickMissingEnv ⟨none, none⟩ "press it"
        (startMarker ++ clickMissingJson ++ endMarker)).responseText =
      "Error: No element found with selector: #missing" ∧
    getHistory (handleSendAction clickMissingEnv ⟨none, none⟩ "press it"
        (startMarker ++ clickMissingJson ++ endMarker)).storage =
      [{ prompt := "press it", response := clickMissingPlan,
         timestamp := "2025-01-01T00:00:00.000Z" }] ∧
    getHistory (handleSendActionFirst clickMissingEnv ⟨none, none⟩ "press it"
        (startMarker ++ clickMissingJson ++ endMarker)).storage = [] := by
  refine ⟨rfl, rfl, rfl, rfl⟩

theorem runHandleSendAction_without_local_key (env : RunEnv) (st : Storage) (shown : String)
    (hp : env.promptValue ≠ "") (hk : env.localStorageKey = none) :
    runHandleSendAction env st shown =
      ([], { responseText := "Error: API key not found", storage := st, events := [] }) := by
  unfold runHandleSendAction
  simp only [hp, if_false, hk, readApiKey]
  rfl

theorem runHandleSendActionFirst_bearer (env : RunEnv) (st : Storage) (shown k : String)
    (hp : env.promptValue ≠ "") (hk : st.mistralApiKey = some k) (hne : k ≠ "") :
    (runHandleSendActionFirst env st shown).1 =
      [completionRequest k (llmPromptFirst env.promptValue)] ∧
    (completionRequest k (llmPromptFirst env.promptValue)).authorization = "Bearer " ++ k := by
  refine ⟨?_, rfl⟩
  unfold runHandleSendActionFirst
  simp only [hp, if_false, readApiKeyFirst, hk]
  have : (k != "") = true := by simp [hne]
  simp only [this, if_true]
  split <;> rfl

/-- C17, the code at the failing input. `promptForApiKey` stores the key
`sk-test` in `chrome.storage.local`; `localStorage` holds no key. The effective
`handleSendAction` looks the key up in `localStorage`, fails with
`API key not found` and sends no request; the first declaration, which reads
`chrome.storage.local`, sends `Bearer sk-test`. -/
theorem stored_key_not_used :
    (promptForApiKey ⟨none, none⟩ (some "sk-test") none).1.mistralApiKey = some "sk-test" ∧
    runHandleSendAction
        { promptValue := "press it", localStorageKey := none, fetch := sampleFetch,
          send := clickMissingEnv }
        (promptForApiKey ⟨none, none⟩ (some "sk-test") none).1 "" =
      ([], { responseText := "Error: API key not found",
             storage := (promptForApiKey ⟨none, none⟩ (some "sk-test") none).1,
             events := [] }) ∧
    ((runHandleSendActionFirst
        { promptValue := "press it", localStorageKey := none, fetch := sampleFetch,
          send := clickMissingEnv }
        (promptForApiKey ⟨none, none⟩ (some "sk-test") none).1 "").1.map
          fun request => request.authorization) = ["Bearer sk-test"] := by
  refine ⟨rfl, rfl, rfl⟩

/-! ## Screenshot stitching: theorems -/

theorem drawAll_size {α : Type} (shots : List (Screenshot α)) (canvas : Canvas α) :
    (shots.foldl (fun cv shot => drawImage cv shot.image shot.position) canvas).width
      = canvas.width ∧
    (shots.foldl (fun cv shot => drawImage cv shot.image shot.position) canvas).height
      = canvas.height := by
  induction shots generalizing canvas with
  | nil => exact ⟨rfl, rfl⟩
  | cons s rest ih =>
      simp only [List.foldl_cons]
      exact ih (drawImage canvas s.image s.position)

theorem drawAll_pixel {α : Type} (shots : List (Screenshot α)) (canvas : Canvas α)
    (row col : Nat) (v : α) (hrow : row < canvas.height) (hcol : col < canvas.width)
    (hval : ∀ s ∈ shots, s.position ≤ row → row < s.position + s.image.height →
      col < s.image.width → s.image.pixel (row - s.position) col = v)
    (hsome : (∃ s ∈ shots, s.position ≤ row ∧ row < s.position + s.image.height ∧
      col < s.image.width) ∨ canvas.pixel row col = some v) :
    (shots.foldl (fun cv shot => drawImage cv shot.image shot.position) canvas).pixel row col
      = some v := by
  induction shots generalizing canvas with
  | nil =>
      rcases hsome with ⟨s, hs, _⟩ | h
      · simp at hs
      · exact h
  | cons s rest ih =>
      simp only [List.foldl_cons]
      apply ih (drawImage canvas s.image s.position) hrow hcol
      · intro s' hs'
        exact hval s' (List.mem_cons_of_mem _ hs')
      · by_cases hcov : s.position ≤ row ∧ row < s.position + s.image.height ∧
            col < s.image.width
        · right
          have hv := hval s (List.mem_cons_self _ _) hcov.1 hcov.2.1 hcov.2.2
          simp only [drawImage, hcov, hrow, hcol, and_self, if_true, hv]
        · rcases hsome with ⟨s', hs', hc'⟩ | h
          · rcases List.mem_cons.1 hs' with heq | hmem
            · subst heq; exact absurd hc' hcov
            · exact Or.inl ⟨s', hmem, hc'⟩
          · right
            have hncov : ¬ (s.position ≤ row ∧ row < s.position + s.image.height ∧
                col < s.image.width ∧ row < canvas.height ∧ col < canvas.width) :=
              fun hx => hcov ⟨hx.1, hx.2.1, hx.2.2.1⟩
            simp only [drawImage, hncov, if_false, h]

theorem band_unique (h j k r : Nat) (hr : r < h) (h1 : j * h ≤ k * h + r)
    (h2 : k * h + r < j * h + h) : j = k := by
  rcases Nat.lt_trichotomy j k with hlt | heq | hgt
  · have : (j + 1) * h ≤ k * h := Nat.mul_le_mul_right h hlt
    rw [Nat.add_mul, Nat.one_mul] at this
    omega
  · exact heq
  · have : (k + 1) * h ≤ j * h := Nat.mul_le_mul_right h hgt
    rw [Nat.add_mul, Nat.one_mul] at this
    omega

theorem drawBands_pixel {α : Type} (n h w : Nat) (imgs : Nat → Image α) (order : List Nat)
    (canvas : Canvas α) (horder : ∀ j ∈ order, j < n)
    (hH : canvas.height = n * h) (hW : canvas.width = w)
    (hdim : ∀ k < n, (imgs k).height = h ∧ (imgs k).width = w)
    (k : Nat) (hk : k < n) (hmem : k ∈ order) (r : Nat) (hr : r < h) (c : Nat) (hc : c < w) :
    ((order.map fun j => (⟨imgs j, j * h⟩ : Screenshot α)).foldl
        (fun cv shot => drawImage cv shot.image shot.position) canvas).pixel (k * h + r) c
      = some ((imgs k).pixel r c) := by
  have hrow : k * h + r < canvas.height := by
    have : (k + 1) * h ≤ n * h := Nat.mul_le_mul_right h hk
    rw [Nat.add_mul, Nat.one_mul] at this
    omega
  apply drawAll_pixel _ canvas (k * h + r) c _ hrow (by omega)
  · intro s hs h1 h2 _
    obtain ⟨j, hj, rfl⟩ := List.mem_map.1 hs
    simp only at h1 h2 ⊢
    rw [(hdim j (horder j hj)).1] at h2
    have hjk : j = k := band_unique h j k r hr h1 h2
    subst hjk
    rw [Nat.add_sub_cancel_left]
  · left
    refine ⟨⟨imgs k, k * h⟩, List.mem_map.2 ⟨k, hmem, rfl⟩, ?_⟩
    simp only [(hdim k hk).1, (hdim k hk).2]
    omega

theorem foldl_congr_mem {β γ : Type} (l : List γ) (f g : β → γ → β) (init : β)
    (h : ∀ x ∈ l, ∀ b, f b x = g b x) : l.foldl f init = l.foldl g init := by
  induction l generalizing init with
  | nil => rfl
  | cons x rest ih =>
      simp only [List.foldl_cons]
      rw [h x (List.mem_cons_self _ _) init]
      exact ih _ fun y hy => h y (List.mem_cons_of_mem _ hy)

/-- C14. For `n ≥ 1` captures of one width `w` and one height `h`, capture `k`
recorded at offset `k * h`: the stitching loop of `captureFullPageScreenshot`,
on a page of height `n * h` and with the captures in any order, yields a canvas
of height `n * h` and width `w` in which every pixel of the band of rows
`k * h .. (k + 1) * h` is the pixel of capture `k`; and `stitchScreenshots`,
with `window.innerHeight = h`, yields the same bands. -/
theorem stitch_bands {α : Type} (n h w : Nat) (imgs : Nat → Image α) (order : List Nat)
    (hn : 1 ≤ n) (horder : order.Perm (List.range n))
    (hdim : ∀ k < n, (imgs k).height = h ∧ (imgs k).width = w) :
    (∃ canvas,
      stitchCaptures (n * h) (order.map fun k => (⟨imgs k, k * h⟩ : Screenshot α))
        = .ok canvas ∧
      canvas.height = n * h ∧ canvas.width = w ∧
      ∀ k < n, ∀ r < h, ∀ c < w,
        canvas.pixel (k * h + r) c = some ((imgs k).pixel r c)) ∧
    (∃ canvas,
      stitchScreenshots h ((List.range n).map imgs) = .ok canvas ∧
      canvas.height = n * h ∧ canvas.width = w ∧
      ∀ k < n, ∀ r < h, ∀ c < w,
        canvas.pixel (k * h + r) c = some ((imgs k).pixel r c)) := by
  have hlt : ∀ j ∈ order, j < n := fun j hj => List.mem_range.1 (horder.mem_iff.1 hj)
  have hin : ∀ k < n, k ∈ order := fun k hk => horder.mem_iff.2 (List.mem_range.2 hk)
  constructor
  · cases horder_eq : order with
    | nil =>
        have := hin 0 (by omega)
        rw [horder_eq] at this
        simp at this
    | cons k0 rest =>
        have hk0 : k0 < n := hlt k0 (by rw [horder_eq]; exact List.mem_cons_self _ _)
        refine ⟨_, rfl, ?_, ?_, ?_⟩
        · exact (drawAll_size _ _).2
        · rw [(drawAll_size _ _).1]
          exact (hdim k0 hk0).2
        · intro k hk r hr c hc
          rw [← horder_eq]
          exact drawBands_pixel n h w imgs order _ hlt rfl (hdim k0 hk0).2 hdim k hk
            (hin k hk) r hr c hc
  · obtain ⟨m, rfl⟩ : ∃ m, n = m + 1 := ⟨n - 1, by omega⟩
    have hfold : ∀ canvas : Canvas α,
        (List.range (m + 1)).foldl
          (fun canvas i =>
            match ((List.range (m + 1)).map imgs)[i]? with
            | some img => drawImage canvas img (i * h)
            | none => canvas) canvas =
        ((List.range (m + 1)).map fun j => (⟨imgs j, j * h⟩ : Screenshot α)).foldl
          (fun cv shot => drawImage cv shot.image shot.position) canvas := by
      intro canvas
      rw [List.foldl_map]
      apply foldl_congr_mem
      intro i hi b
      have hi' : i < m + 1 := List.mem_range.1 hi
      simp [List.getElem?_range, hi']
    have hshape : (List.range (m + 1)).map imgs
        = imgs 0 :: ((List.range m).map Nat.succ).map imgs := by
      rw [List.range_succ_eq_map, List.map_cons]
    have hlen : ((List.range (m + 1)).map imgs).length = m + 1 := by simp
    have hval : stitchScreenshots h ((List.range (m + 1)).map imgs) =
        .ok (((List.range (m + 1)).map fun j => (⟨imgs j, j * h⟩ : Screenshot α)).foldl
          (fun cv shot => drawImage cv shot.image shot.position)
          (Canvas.blank (imgs 0).width (h * (m + 1)))) := by
      rw [← hfold]
      unfold stitchScreenshots
      rw [hlen]
      rw [hshape]
    refine ⟨_, hval, ?_, ?_, ?_⟩
    · rw [(drawAll_size _ _).2]
      exact Nat.mul_comm _ _
    · rw [(drawAll_size _ _).1]
      exact (hdim 0 (by omega)).2
    · intro k hk r hr c hc
      exact drawBands_pixel (m + 1) h w imgs (List.range (m + 1)) _
        (fun j hj => List.mem_range.1 hj) (Nat.mul_comm _ _) (hdim 0 (by omega)).2 hdim k hk
        (List.mem_range.2 hk) r hr c hc

/-- Witness of C14 on the spec's instance: three captures of height 800 at
offsets 0, 800 and 1600, painted in the order 2, 0, 1. -/
theorem stitch_bands_witness :
    (∃ canvas,
      stitchCaptures (3 * 800)
        ([2, 0, 1].map fun k => (⟨flatImage k, k * 800⟩ : Screenshot Nat)) = .ok canvas ∧
      canvas.height = 3 * 800 ∧ canvas.width = 2 ∧
      ∀ k < 3, ∀ r < 800, ∀ c < 2,
        canvas.pixel (k * 800 + r) c = some ((flatImage k).pixel r c)) ∧
    (∃ canvas,
      stitchScreenshots 800 ((List.range 3).map flatImage) = .ok canvas ∧
      canvas.height = 3 * 800 ∧ canvas.width = 2 ∧
      ∀ k < 3, ∀ r < 800, ∀ c < 2,
        canvas.pixel (k * 800 + r) c = some ((flatImage k).pixel r c)) :=
  stitch_bands 3 800 2 flatImage [2, 0, 1] (by decide) (by decide)
    (fun _ _ => ⟨rfl, rfl⟩)

/-! ## Plan executor: theorems -/

theorem toLowerCase_urlChange : toLowerCase "URL change" = "url change" := by decide

theorem truthy_str (s : String) (h : s ≠ "") : (JSVal.str s).truthy = true := by
  simp [JSVal.truthy, h]

theorem templateError_str (pre s : String) :
    templateError pre (.str s) = JsError.mkError (pre ++ s) := rfl

theorem executeSwitch_urlChange (doc : Document) (plan details : JSVal) (u : String)
    (hA : plan.getProp "action" = .ok (.str "URL change"))
    (hD : plan.getProp "details" = .ok details)
    (hU : details.getProp "url" = .ok (.str u))
    (hu : u ≠ "") :
    executeSwitch doc plan =
      match doc.setLocationHref (.str u) with
      | .error e => ([], .error e)
      | .ok () => ([.setLocationHref (.str u)], .ok ()) := by
  unfold executeSwitch
  rw [hA]
  simp only [callToLowerCase, toLowerCase_urlChange, if_true]
  unfold executeUrlChange
  rw [hD]
  simp only [bind, Except.bind, hU, truthy_str u hu, if_true]

/-- C9, the claim as stated, refuted: `http://` is a non-empty url string, the
location setter refuses it, and the executor responds with status `error`
without having set the location. -/
theorem navigate_counterexample :
    "http://" ≠ "" ∧
    executePlan sampleDocument (wirePlan "URL change" [("url", .str "http://")]) =
      ([], [{ status := "error",
              message := some
                "Failed to set the 'href' property on 'Location': 'http://' is an invalid URL." }])
    := by
  refine ⟨by decide, rfl⟩

/-- C9, amended. For every plan whose action is `URL change` and whose
`details.url` is a non-empty string `u`, on every page, the executor's only
call on the page is the assignment of `u` to `window.location.href`, no element
is looked up: when the setter accepts `u` the location is set to exactly `u`
and the executor responds once, with status `success`; when the setter throws,
the location is not set and the executor responds once, with status `error`
and the setter's message. -/
theorem navigate_sets_location (doc : Document) (plan details : JSVal) (u : String)
    (hA : plan.getProp "action" = .ok (.str "URL change"))
    (hD : plan.getProp "details" = .ok details)
    (hU : details.getProp "url" = .ok (.str u))
    (hu : u ≠ "") :
    (doc.setLocationHref (.str u) = .ok () →
      executePlan doc plan =
        ([.setLocationHref (.str u)], [{ status := "success", message := none }])) ∧
    (∀ e, doc.setLocationHref (.str u) = .error e →
      executePlan doc plan = ([], [{ status := "error", message := some e.message }])) := by
  have hsw := executeSwitch_urlChange doc plan details u hA hD hU hu
  constructor
  · intro hok
    rw [hok] at hsw
    unfold executePlan
    rw [hsw]
  · intro e herr
    rw [herr] at hsw
    unfold executePlan
    rw [hsw]

/-- Witness of the amended C9 on the spec's example URL. -/
theorem navigate_sets_location_witness :
    executePlan sampleDocument (wirePlan "URL change" [("url", .str "https://example.com")]) =
      ([.setLocationHref (.str "https://example.com")],
        [{ status := "success", message := none }]) :=
  (navigate_sets_location sampleDocument
    (wirePlan "URL change" [("url", .str "https://example.com")])
    (.obj [("url", .str "https://example.com")]) "https://example.com" rfl rfl rfl
    (by decide)).1 rfl

theorem executeSwitch_buttonClick (doc : Document) (plan details : JSVal) (s : String)
    (hA : plan.getProp "action" = .ok (.str "button_click"))
    (hD : plan.getProp "details" = .ok details)
    (hS : details.getProp "selector" = .ok (.str s))
    (hs : s ≠ "") :
    executeSwitch doc plan =
      match doc.querySelector (.str s) with
      | .error e => ([.querySelector (.str s)], .error e)
      | .ok (some button) =>
          match doc.click button with
          | .error e => ([.querySelector (.str s)], .error e)
          | .ok () => ([.querySelector (.str s), .click button], .ok ())
      | .ok none =>
          ([.querySelector (.str s)],
            .error (JsError.mkError ("No element found with selector: " ++ s))) := by
  have hl : toLowerCase "button_click" = "button_click" := by decide
  have hne : ¬ ("button_click" = "url change") := by decide
  unfold executeSwitch
  rw [hA]
  simp only [callToLowerCase, hl, hne, if_false, if_true]
  unfold executeButtonClick
  rw [hD]
  simp only [bind, Except.bind, hS, truthy_str s hs, if_true, templateError_str]

/-- C10, the claim as stated, refuted: `#icon` matches an element, an SVG icon
without a `click` method; calling `click()` on it throws, no click happens and
the executor responds with status `error`. -/
theorem click_counterexample :
    sampleDocument.querySelector (.str "#icon") = .ok (some 3) ∧
    executePlan sampleDocument (wirePlan "button_click" [("selector", .str "#icon")]) =
      ([.querySelector (.str "#icon")],
        [{ status := "error", message := some "button.click is not a function" }]) ∧
    clickCount (executePlan sampleDocument
      (wirePlan "button_click" [("selector", .str "#icon")])).1 = 0 := by
  refine ⟨rfl, rfl, rfl⟩

/-- C10, amended. For every plan whose action is `button_click` and whose
`details.selector` is a non-empty string `s`, on every page: when `s` matches no
element the executor responds once with status `error` and the message
`No element found with selector: s`, which contains `s`, and no element is
clicked; when `s` matches an element and `click()` on it returns, `click()` was
called on that element exactly once and the executor responds once with status
`success`; when `click()` on the matched element throws, nothing is clicked and
the executor responds once with status `error` and the thrown message. -/
theorem click_found_or_error (doc : Document) (plan details : JSVal) (s : String)
    (hA : plan.getProp "action" = .ok (.str "button_click"))
    (hD : plan.getProp "details" = .ok details)
    (hS : details.getProp "selector" = .ok (.str s))
    (hs : s ≠ "") :
    (doc.querySelector (.str s) = .ok none →
      executePlan doc plan =
        ([.querySelector (.str s)],
          [{ status := "error", message := some ("No element found with selector: " ++ s) }]) ∧
      s.data <:+: ("No element found with selector: " ++ s).data ∧
      clickCount (executePlan doc plan).1 = 0) ∧
    (∀ button, doc.querySelector (.str s) = .ok (some button) →
      (doc.click button = .ok () →
        executePlan doc plan =
          ([.querySelector (.str s), .click button],
            [{ status := "success", message := none }]) ∧
        clickCount (executePlan doc plan).1 = 1) ∧
      (∀ e, doc.click button = .error e →
        executePlan doc plan =
          ([.querySelector (.str s)], [{ status := "error", message := some e.message }]) ∧
        clickCount (executePlan doc plan).1 = 0)) := by
  have hsw := executeSwitch_buttonClick doc plan details s hA hD hS hs
  constructor
  · intro hq
    rw [hq] at hsw
    have hx : executePlan doc plan =
        ([.querySelector (.str s)],
          [{ status := "error",
             message := some ("No element found with selector: " ++ s) }]) := by
      unfold executePlan
      rw [hsw]
      rfl
    refine ⟨hx, ?_, ?_⟩
    · rw [String.data_append]
      exact (List.suffix_append _ _).isInfix
    · rw [hx]; rfl
  · intro button hq
    rw [hq] at hsw
    constructor
    · intro hok
      simp only [hok] at hsw
      have hx : executePlan doc plan =
          ([.querySelector (.str s), .click button],
            [{ status := "success", message := none }]) := by
        unfold executePlan
        rw [hsw]
      refine ⟨hx, ?_⟩
      rw [hx]; rfl
    · intro e herr
      simp only [herr] at hsw
      have hx : executePlan doc plan =
          ([.querySelector (.str s)],
            [{ status := "error", message := some e.message }]) := by
        unfold executePlan
        rw [hsw]
      refine ⟨hx, ?_⟩
      rw [hx]; rfl

/-- Witness of the amended C10 on `sampleDocument`: `#missing` matches nothing,
`#submit-button` matches element 7, which can be clicked. -/
theorem click_found_or_error_witness :
    executePlan sampleDocument (wirePlan "button_click" [("selector", .str "#missing")]) =
      ([.querySelector (.str "#missing")],
        [{ status := "error", message := some "No element found with selector: #missing" }]) ∧
    executePlan sampleDocument (wirePlan "button_click" [("selector", .str "#submit-button")]) =
      ([.querySelector (.str "#submit-button"), .click 7],
        [{ status := "success", message := none }]) :=
  ⟨((click_found_or_error sampleDocument
        (wirePlan "button_click" [("selector", .str "#missing")])
        (.obj [("selector", .str "#missing")]) "#missing" rfl rfl rfl (by decide)).1 rfl).1,
    (((click_found_or_error sampleDocument
        (wirePlan "button_click" [("selector", .str "#submit-button")])
        (.obj [("selector", .str "#submit-button")]) "#submit-button" rfl rfl rfl
        (by decide)).2 7 rfl).1 rfl).1⟩

/-! ## Input text: theorems -/

theorem executeSwitch_inputText (doc : Document) (plan details : JSVal) (s t : String)
    (hA : plan.getProp "action" = .ok (.str "input_text"))
    (hD : plan.getProp "details" = .ok details)
    (hS : details.getProp "selector" = .ok (.str s))
    (hT : details.getProp "text" = .ok (.str t))
    (hs : s ≠ "") :
    executeSwitch doc plan =
      match doc.querySelector (.str s) with
      | .error e => ([.querySelector (.str s)], .error e)
      | .ok (some input) =>
          match doc.setValue input t with
          | .error e => ([.querySelector (.str s)], .error e)
          | .ok () =>
              match doc.dispatchInput input with
              | .error e => ([.querySelector (.str s), .setValue input t], .error e)
              | .ok () =>
                  ([.querySelector (.str s), .setValue input t, .dispatchInput input], .ok ())
      | .ok none =>
          ([.querySelector (.str s)],
            .error (JsError.mkError ("No input found with selector: " ++ s))) := by
  have hl : toLowerCase "input_text" = "input_text" := by decide
  have hne : ¬ ("input_text" = "url change") := by decide
  have hne2 : ¬ ("input_text" = "button_click") := by decide
  unfold executeSwitch
  rw [hA]
  simp only [callToLowerCase, hl, hne, hne2, if_false, if_true]
  unfold executeInputText
  rw [hD]
  simp only [bind, Except.bind, hS, hT, truthy_str s hs, if_true, templateError_str]

/-- C11, the claim as stated, refuted: `#upload` matches an element, a file
input; assigning the text `report.pdf` to its value throws, the value is not
changed, no `input` event is dispatched and the executor responds with status
`error`. -/
theorem input_text_counterexample :
    sampleDocument.querySelector (.str "#upload") = .ok (some 4) ∧
    executePlan sampleDocument
        (wirePlan "input_text" [("selector", .str "#upload"), ("text", .str "report.pdf")]) =
      ([.querySelector (.str "#upload")],
        [{ status := "error",
           message := some ("Failed to set the 'value' property on 'HTMLInputElement': " ++
             "This input element accepts a filename, which may only be programmatically " ++
             "set to the empty string.") }]) := by
  refine ⟨rfl, rfl⟩

/-- C11, amended. For every plan whose action is `input_text`, whose
`details.selector` is a non-empty string `s` and whose `details.text` is a
string `t`, on every page: when `s` matches an element and both the assignment
of `t` to its value and the dispatch of the `input` event return, the element's
value was set to exactly `t`, then the event was dispatched on it, and the
executor responds once with status `success`; when the assignment throws, no
value is changed, no event is dispatched and the executor responds once with
status `error`; when the dispatch throws, the response is `error` as well; when
`s` matches no element, the executor responds once with status `error`, sets
no value and dispatches no event. -/
theorem input_text_found_or_error (doc : Document) (plan details : JSVal) (s t : String)
    (hA : plan.getProp "action" = .ok (.str "input_text"))
    (hD : plan.getProp "details" = .ok details)
    (hS : details.getProp "selector" = .ok (.str s))
    (hT : details.getProp "text" = .ok (.str t))
    (hs : s ≠ "") :
    (∀ input, doc.querySelector (.str s) = .ok (some input) →
      (doc.setValue input t = .ok () → doc.dispatchInput input = .ok () →
        executePlan doc plan =
          ([.querySelector (.str s), .setValue input t, .dispatchInput input],
            [{ status := "success", message := none }])) ∧
      (∀ e, doc.setValue input t = .error e →
        executePlan doc plan =
          ([.querySelector (.str s)], [{ status := "error", message := some e.message }])) ∧
      (∀ e, doc.setValue input t = .ok () → doc.dispatchInput input = .error e →
        executePlan doc plan =
          ([.querySelector (.str s), .setValue input t],
            [{ status := "error", message := some e.message }]))) ∧
    (doc.querySelector (.str s) = .ok none →
      executePlan doc plan =
        ([.querySelector (.str s)],
          [{ status := "error", message := some ("No input found with selector: " ++ s) }]) ∧
      ∀ op ∈ (executePlan doc plan).1, isPageAction op = false) := by
  have hsw := executeSwitch_inputText doc plan details s t hA hD hS hT hs
  constructor
  · intro input hq
    rw [hq] at hsw
    refine ⟨?_, ?_, ?_⟩
    · intro hv hd
      simp only [hv, hd] at hsw
      unfold executePlan
      rw [hsw]
    · intro e hv
      simp only [hv] at hsw
      unfold executePlan
      rw [hsw]
    · intro e hv hd
      simp only [hv, hd] at hsw
      unfold executePlan
      rw [hsw]
  · intro hq
    rw [hq] at hsw
    have hx : executePlan doc plan =
        ([.querySelector (.str s)],
          [{ status := "error",
             message := some ("No input found with selector: " ++ s) }]) := by
      unfold executePlan
      rw [hsw]
      rfl
    refine ⟨hx, ?_⟩
    rw [hx]
    intro op hop
    simp only [List.mem_singleton] at hop
    subst hop
    rfl

/-- Witness of the amended C11 on `sampleDocument`: `#submit-button` matches
element 7, which takes the value; `#username` matches nothing. -/
theorem input_text_found_or_error_witness :
    executePlan sampleDocument
        (wirePlan "input_text" [("selector", .str "#submit-button"), ("text", .str "alice")]) =
      ([.querySelector (.str "#submit-button"), .setValue 7 "alice", .dispatchInput 7],
        [{ status := "success", message := none }]) ∧
    executePlan sampleDocument
        (wirePlan "input_text" [("selector", .str "#username"), ("text", .str "alice")]) =
      ([.querySelector (.str "#username")],
        [{ status := "error", message := some "No input found with selector: #username" }]) :=
  ⟨((input_text_found_or_error sampleDocument
        (wirePlan "input_text" [("selector", .str "#submit-button"), ("text", .str "alice")])
        (.obj [("selector", .str "#submit-button"), ("text", .str "alice")])
        "#submit-button" "alice" rfl rfl rfl rfl (by decide)).1 7 rfl).1 rfl rfl,
    ((input_text_found_or_error sampleDocument
        (wirePlan "input_text" [("selector", .str "#username"), ("text", .str "alice")])
        (.obj [("selector", .str "#username"), ("text", .str "alice")])
        "#username" "alice" rfl rfl rfl rfl (by decide)).2 rfl).1⟩

/-! ## Field checks and action labels: theorems -/

mutual
theorem toStr_error_name : ∀ (v : JSVal) (e : JsError), v.toStr = .error e →
    e.name = "TypeError"
  | .undefined, e, h => by simp [JSVal.toStr] at h
  | .null, e, h => by simp [JSVal.toStr] at h
  | .bool true, e, h => by simp [JSVal.toStr] at h
  | .bool false, e, h => by simp [JSVal.toStr] at h
  | .num _, e, h => by simp [JSVal.toStr] at h
  | .str _, e, h => by simp [JSVal.toStr] at h
  | .arr items, e, h => joinItems_error_name items e (by simpa [JSVal.toStr] using h)
  | .obj fields, e, h => by
      simp only [JSVal.toStr] at h
      split at h
      · cases h; rfl
      · cases h
theorem joinItems_error_name : ∀ (items : List JSVal) (e : JsError),
    JSVal.joinItems items = .error e → e.name = "TypeError"
  | [], e, h => by simp [JSVal.joinItems] at h
  | [v], e, h => itemStr_error_name v e (by simpa [JSVal.joinItems] using h)
  | v :: w :: rest, e, h => by
      simp only [JSVal.joinItems] at h
      split at h
      · next e1 h1 =>
          cases h
          exact itemStr_error_name v e h1
      · split at h
        · next e2 h2 =>
            cases h
            exact joinItems_error_name (w :: rest) e h2
        · cases h
theorem itemStr_error_name : ∀ (v : JSVal) (e : JsError), JSVal.itemStr v = .error e →
    e.name = "TypeError"
  | .undefined, e, h => by simp [JSVal.itemStr] at h
  | .null, e, h => by simp [JSVal.itemStr] at h
  | .bool true, e, h => by simp [JSVal.itemStr] at h
  | .bool false, e, h => by simp [JSVal.itemStr] at h
  | .num _, e, h => by simp [JSVal.itemStr] at h
  | .str _, e, h => by simp [JSVal.itemStr] at h
  | .arr items, e, h => joinItems_error_name items e (by simpa [JSVal.itemStr] using h)
  | .obj fields, e, h => by
      simp only [JSVal.itemStr] at h
      split at h
      · cases h; rfl
      · cases h
end

theorem toStr_str (s : String) : (JSVal.str s).toStr = .ok s := rfl

theorem getProp_wirePlan_action (label : String) (fields : List (String × JSVal)) :
    (wirePlan label fields).getProp "action" = .ok (.str label) := rfl

theorem getProp_wirePlan_details (label : String) (fields : List (String × JSVal)) :
    (wirePlan label fields).getProp "details" = .ok (.obj fields) := rfl

theorem getProp_of_truthy (v : JSVal) (key : String) (h : v.truthy = true) :
    ∃ r, v.getProp key = .ok r := by
  cases v <;> simp_all [JSVal.truthy, JSVal.getProp]

theorem validatePlan_unknown (plan details : JSVal) (a : String)
    (hA : plan.getProp "action" = .ok (.str a))
    (hD : plan.getProp "details" = .ok details)
    (hne : a ≠ "") (hd : details.truthy = true) (hnot : a ∉ actionLabels) :
    validatePlan plan = .error (JsError.mkError "Unknown action type received.") := by
  simp only [actionLabels, List.mem_cons, List.mem_singleton, List.not_mem_nil, or_false,
    not_or] at hnot
  obtain ⟨h1, h2, h3⟩ := hnot
  unfold validatePlan
  simp [hA, hD, bind, Except.bind, truthy_str a hne, hd, h1, h2, h3, pure, Except.pure,
    throw, throwThe, MonadExceptOf.throw, toStr_str]

theorem validatePlan_known (plan details : JSVal) (a : String)
    (hA : plan.getProp "action" = .ok (.str a))
    (hD : plan.getProp "details" = .ok details)
    (hd : details.truthy = true) (hin : a ∈ actionLabels)
    (hrender : ∀ key v, details.getProp key = .ok v → ∃ t, v.toStr = .ok t) :
    ∃ m, validatePlan plan = .ok m := by
  obtain ⟨url, hurl⟩ := getProp_of_truthy details "url" hd
  obtain ⟨sel, hsel⟩ := getProp_of_truthy details "selector" hd
  obtain ⟨text, htext⟩ := getProp_of_truthy details "text" hd
  obtain ⟨urlText, hurlText⟩ := hrender "url" url hurl
  obtain ⟨selText, hselText⟩ := hrender "selector" sel hsel
  obtain ⟨textText, htextText⟩ := hrender "text" text htext
  simp only [actionLabels, List.mem_cons, List.mem_singleton, List.not_mem_nil, or_false] at hin
  have t1 : (JSVal.str "URL change").truthy = true := rfl
  have t2 : (JSVal.str "button_click").truthy = true := rfl
  have t3 : (JSVal.str "input_text").truthy = true := rfl
  rcases hin with h | h | h <;> subst h <;> unfold validatePlan <;>
    simp [hA, hD, bind, Except.bind, t1, t2, t3, hd, pure, Except.pure, hurl, hsel, htext,
      hurlText, hselText, htextText, toStr_str]

theorem validatePlan_error_name (plan details : JSVal) (a : String) (e : JsError)
    (hA : plan.getProp "action" = .ok (.str a))
    (hD : plan.getProp "details" = .ok details)
    (hd : details.truthy = true) (hin : a ∈ actionLabels)
    (he : validatePlan plan = .error e) : e.name = "TypeError" := by
  obtain ⟨url, hurl⟩ := getProp_of_truthy details "url" hd
  obtain ⟨sel, hsel⟩ := getProp_of_truthy details "selector" hd
  obtain ⟨text, htext⟩ := getProp_of_truthy details "text" hd
  simp only [actionLabels, List.mem_cons, List.mem_singleton, List.not_mem_nil, or_false] at hin
  have t1 : (JSVal.str "URL change").truthy = true := rfl
  have t2 : (JSVal.str "button_click").truthy = true := rfl
  have t3 : (JSVal.str "input_text").truthy = true := rfl
  unfold validatePlan at he
  rcases hin with h | h | h <;> subst h
  · simp only [hA, hD, bind, Except.bind, t1, hd, pure, Except.pure, hurl, toStr_str,
      Bool.not_true, Bool.false_eq_true, if_false, if_true] at he
    cases hu : url.toStr with
    | error e1 =>
        rw [hu] at he
        cases he
        exact toStr_error_name url e hu
    | ok t =>
        rw [hu] at he
        cases he
  · simp only [hA, hD, bind, Except.bind, t2, hd, pure, Except.pure, hsel, toStr_str,
      Bool.not_true, Bool.false_eq_true, if_false, if_true,
      (by decide : ¬ ("button_click" = "URL change"))] at he
    cases hu : sel.toStr with
    | error e1 =>
        rw [hu] at he
        cases he
        exact toStr_error_name sel e hu
    | ok t =>
        rw [hu] at he
        cases he
  · simp only [hA, hD, bind, Except.bind, t3, hd, pure, Except.pure, hsel, htext, toStr_str,
      Bool.not_true, Bool.false_eq_true, if_false, if_true,
      (by decide : ¬ ("input_text" = "URL change")),
      (by decide : ¬ ("input_text" = "button_click"))] at he
    cases hu : sel.toStr with
    | error e1 =>
        rw [hu] at he
        cases he
        exact toStr_error_name sel e hu
    | ok t =>
        rw [hu] at he
        cases hv : text.toStr with
        | error e2 =>
            rw [hv] at he
            cases he
            exact toStr_error_name text e hv
        | ok t2 =>
            rw [hv] at he
            cases he

/-- C7, the claim as stated, refuted. The popup's gate accepts a `URL change`
plan without `url`; the executor accepts a `URL change` plan whose `url` is a
number; and the executor's rejection of an `input_text` plan is the same
message whether `selector` or `text` is the missing field. -/
theorem validator_fields_counterexample :
    (validatePlan (wirePlan "URL change" []) =
        .ok "Planned Action: URL change\nNew URL: undefined" ∧
      specRequiredFields "URL change" [] = false) ∧
    (executePlan sampleDocument (wirePlan "URL change" [("url", .num ⟨false, "42"⟩)]) =
        ([.setLocationHref (.num ⟨false, "42"⟩)], [{ status := "success", message := none }]) ∧
      specRequiredFields "URL change" [("url", .num ⟨false, "42"⟩)] = false) ∧
    (executePlan sampleDocument (wirePlan "input_text" [("selector", .str "#a")])).2 =
      (executePlan sampleDocument (wirePlan "input_text" [("text", .str "x")])).2 := by
  refine ⟨⟨rfl, rfl⟩, ⟨rfl, rfl⟩, rfl⟩

theorem executeSwitch_wirePlan_url (doc : Document) (fields : List (String × JSVal)) :
    executeSwitch doc (wirePlan "URL change" fields) =
      if (lookupField "url" fields).truthy then
        match doc.setLocationHref (lookupField "url" fields) with
        | .error e => ([], .error e)
        | .ok () => ([.setLocationHref (lookupField "url" fields)], .ok ())
      else ([], .error (JsError.mkError "URL is missing in the plan.")) := by
  unfold executeSwitch
  rw [getProp_wirePlan_action]
  simp only [callToLowerCase, toLowerCase_urlChange, if_true]
  unfold executeUrlChange
  rw [getProp_wirePlan_details]
  rfl

theorem executeSwitch_wirePlan_click (doc : Document) (fields : List (String × JSVal)) :
    executeSwitch doc (wirePlan "button_click" fields) =
      executeButtonClick doc (wirePlan "button_click" fields) := by
  have hl : toLowerCase "button_click" = "button_click" := by decide
  have hne : ¬ ("button_click" = "url change") := by decide
  unfold executeSwitch
  rw [getProp_wirePlan_action]
  simp only [callToLowerCase, hl, hne, if_false, if_true]

theorem executeSwitch_wirePlan_input (doc : Document) (fields : List (String × JSVal)) :
    executeSwitch doc (wirePlan "input_text" fields) =
      executeInputText doc (wirePlan "input_text" fields) := by
  have hl : toLowerCase "input_text" = "input_text" := by decide
  have hne : ¬ ("input_text" = "url change") := by decide
  have hne2 : ¬ ("input_text" = "button_click") := by decide
  unfold executeSwitch
  rw [getProp_wirePlan_action]
  simp only [callToLowerCase, hl, hne, hne2, if_false, if_true]

/-- C7, amended. The popup's gate does not check the fields of a plan: a plan
that carries one of the three labels and a `details` object is accepted
whenever the fields can be converted to text for the confirmation message
(an absent field shows as `undefined`), and the only rejection is the
`TypeError` of that conversion. The field checks are the executor's:
`URL change` assigns the location iff `details.url` is truthy (answering
`success`, or the setter's error when the setter throws), else it answers
`URL is missing in the plan.`; `button_click` looks the element up iff
`details.selector` is truthy, else it answers `Selector is missing in the
plan.`; `input_text` looks the element up iff `details.selector` is truthy and
`details.text` is a string, else it answers `Selector or text is missing in
the plan.` -/
theorem executor_field_checks (doc : Document) (fields : List (String × JSVal)) :
    (∀ label ∈ actionLabels, (∀ key, ∃ t, (lookupField key fields).toStr = .ok t) →
      ∃ m, validatePlan (wirePlan label fields) = .ok m) ∧
    (∀ label ∈ actionLabels, ∀ e, validatePlan (wirePlan label fields) = .error e →
      e.name = "TypeError") ∧
    executePlan doc (wirePlan "URL change" fields) =
      (if (lookupField "url" fields).truthy then
        match doc.setLocationHref (lookupField "url" fields) with
        | .ok () =>
            ([.setLocationHref (lookupField "url" fields)],
              [{ status := "success", message := none }])
        | .error e => ([], [{ status := "error", message := some e.message }])
      else ([], [{ status := "error", message := some "URL is missing in the plan." }])) ∧
    ((lookupField "selector" fields).truthy = false →
      executePlan doc (wirePlan "button_click" fields) =
        ([], [{ status := "error", message := some "Selector is missing in the plan." }])) ∧
    ((lookupField "selector" fields).truthy = true →
      (executePlan doc (wirePlan "button_click" fields)).1.head? =
        some (.querySelector (lookupField "selector" fields))) ∧
    (((lookupField "selector" fields).truthy && (lookupField "text" fields).isString) = false →
      executePlan doc (wirePlan "input_text" fields) =
        ([], [{ status := "error",
                message := some "Selector or text is missing in the plan." }])) ∧
    (((lookupField "selector" fields).truthy && (lookupField "text" fields).isString) = true →
      (executePlan doc (wirePlan "input_text" fields)).1.head? =
        some (.querySelector (lookupField "selector" fields))) := by
  refine ⟨?_, ?_, ?_, ?_, ?_, ?_, ?_⟩
  · intro label hl hrender
    refine validatePlan_known (wirePlan label fields) (.obj fields) label rfl rfl rfl hl ?_
    intro key v hv
    have : v = lookupField key fields := by
      simp only [JSVal.getProp, Except.ok.injEq] at hv
      exact hv.symm
    rw [this]
    exact hrender key
  · intro label hl e he
    exact validatePlan_error_name (wirePlan label fields) (.obj fields) label e rfl rfl rfl hl he
  · unfold executePlan
    rw [executeSwitch_wirePlan_url]
    cases h : (lookupField "url" fields).truthy
    · rfl
    · simp only [if_true]
      cases hs : doc.setLocationHref (lookupField "url" fields) <;> rfl
  · intro h
    unfold executePlan
    rw [executeSwitch_wirePlan_click]
    unfold executeButtonClick
    rw [getProp_wirePlan_details]
    simp only [bind, Except.bind, JSVal.getProp, h]
    rfl
  · intro h
    unfold executePlan
    rw [executeSwitch_wirePlan_click]
    unfold executeButtonClick
    rw [getProp_wirePlan_details]
    simp only [bind, Except.bind, JSVal.getProp, h, if_true]
    cases hq : doc.querySelector (lookupField "selector" fields) with
    | error e => rfl
    | ok r =>
        cases r with
        | none => rfl
        | some button => cases hc : doc.click button <;> simp [hc]
  · intro h
    unfold executePlan
    rw [executeSwitch_wirePlan_input]
    unfold executeInputText
    rw [getProp_wirePlan_details]
    simp only [bind, Except.bind, JSVal.getProp]
    cases hs : (lookupField "selector" fields).truthy with
    | false => rfl
    | true =>
        rw [hs, Bool.true_and] at h
        cases ht : lookupField "text" fields <;> simp_all [JSVal.isString, JsError.mkError]
  · intro h
    rw [Bool.and_eq_true] at h
    unfold executePlan
    rw [executeSwitch_wirePlan_input]
    unfold executeInputText
    rw [getProp_wirePlan_details]
    simp only [bind, Except.bind, JSVal.getProp, h.1, if_true]
    cases ht : lookupField "text" fields <;> simp_all [JSVal.isString]
    cases hq : doc.querySelector (lookupField "selector" fields) with
    | error e => rfl
    | ok r =>
        cases r with
        | none => rfl
        | some input =>
            next text =>
            cases hv : doc.setValue input text with
            | error e => simp [hv]
            | ok u =>
                cases hd : doc.dispatchInput input <;> simp [hv, hd]

/-- Witness of the amended C7: a click plan without selector and an input plan
without text, on `sampleDocument`. -/
theorem executor_field_checks_witness :
    executePlan sampleDocument (wirePlan "button_click" []) =
      ([], [{ status := "error", message := some "Selector is missing in the plan." }]) ∧
    executePlan sampleDocument (wirePlan "input_text" [("selector", .str "#a")]) =
      ([], [{ status := "error", message := some "Selector or text is missing in the plan." }]) :=
  ⟨(executor_field_checks sampleDocument []).2.2.2.1 rfl,
    (executor_field_checks sampleDocument [("selector", .str "#a")]).2.2.2.2.2.1 rfl⟩

/-- C8, the claim as stated, refuted. The gate rejects the lower-case spelling
`url change` with a message that does not contain the label, and the executor
does not reject the spelling `Button_Click`: it clicks. -/
theorem unknown_action_counterexample :
    validatePlan (wirePlan "url change" [("url", .str "https://example.com")]) =
      .error (JsError.mkError "Unknown action type received.") ∧
    ¬ "url change".data <:+: "Unknown action type received.".data ∧
    executePlan sampleDocument (wirePlan "Button_Click" [("selector", .str "#submit-button")]) =
      ([.querySelector (.str "#submit-button"), .click 7],
        [{ status := "success", message := none }]) := by
  refine ⟨rfl, by decide, rfl⟩

theorem executePlan_unknown (doc : Document) (plan : JSVal) (a : String)
    (hA : plan.getProp "action" = .ok (.str a))
    (hlow : toLowerCase a ∉ executorLabels) :
    executePlan doc plan =
      ([], [{ status := "error", message := some ("Unknown action type: " ++ a) }]) := by
  simp only [executorLabels, List.mem_cons, List.mem_singleton, List.not_mem_nil, or_false,
    not_or] at hlow
  obtain ⟨h1, h2, h3⟩ := hlow
  have hsw : executeSwitch doc plan =
      ([], .error (JsError.mkError ("Unknown action type: " ++ a))) := by
    unfold executeSwitch
    rw [hA]
    simp only [callToLowerCase, h1, h2, h3, if_false, templateError_str]
  unfold executePlan
  rw [hsw]
  rfl

theorem executeSwitch_lowered (doc : Document) (plan : JSVal) (a : String)
    (hA : plan.getProp "action" = .ok (.str a)) :
    (toLowerCase a = "url change" → executeSwitch doc plan = executeUrlChange doc plan) ∧
    (toLowerCase a = "button_click" →
      executeSwitch doc plan = executeButtonClick doc plan) ∧
    (toLowerCase a = "input_text" → executeSwitch doc plan = executeInputText doc plan) := by
  have n1 : ¬ ("button_click" = "url change") := by decide
  have n2 : ¬ ("input_text" = "url change") := by decide
  have n3 : ¬ ("input_text" = "button_click") := by decide
  refine ⟨fun h => ?_, fun h => ?_, fun h => ?_⟩ <;> unfold executeSwitch <;> rw [hA] <;>
    simp only [callToLowerCase, h, n1, n2, n3, if_false, if_true]

/-- C8, amended. For a plan with a non-empty action string `a` and a truthy
`details`: the popup's gate matches `a` case-sensitively against exactly the
three labels. When `a` is one of them the plan is accepted whenever its fields
can be converted to text for the confirmation message, and is otherwise
rejected only by the `TypeError` of that conversion; every other `a` is
rejected with the fixed error `Unknown action type received.`, which does not
name the label. The executor compares the lower-cased action with its three
`case` labels, so it accepts other-case spellings and runs the branch the
lower-cased action names; when `a` does not lower-case to one of them it
responds with the error `Unknown action type: a`, which names the label, and
touches nothing on the page. -/
theorem action_label_matching (doc : Document) (plan details : JSVal) (a : String)
    (hA : plan.getProp "action" = .ok (.str a))
    (hD : plan.getProp "details" = .ok details)
    (hne : a ≠ "") (hd : details.truthy = true) :
    (a ∈ actionLabels →
      ((∀ key v, details.getProp key = .ok v → ∃ t, v.toStr = .ok t) →
        ∃ m, validatePlan plan = .ok m) ∧
      (∀ e, validatePlan plan = .error e → e.name = "TypeError")) ∧
    (a ∉ actionLabels →
      validatePlan plan = .error (JsError.mkError "Unknown action type received.")) ∧
    (toLowerCase a = "url change" → executeSwitch doc plan = executeUrlChange doc plan) ∧
    (toLowerCase a = "button_click" →
      executeSwitch doc plan = executeButtonClick doc plan) ∧
    (toLowerCase a = "input_text" → executeSwitch doc plan = executeInputText doc plan) ∧
    (toLowerCase a ∉ executorLabels →
      executePlan doc plan =
        ([], [{ status := "error", message := some ("Unknown action type: " ++ a) }]) ∧
      a.data <:+: ("Unknown action type: " ++ a).data) := by
  have hlow := executeSwitch_lowered doc plan a hA
  refine ⟨fun hin => ⟨validatePlan_known plan details a hA hD hd hin,
      fun e he => validatePlan_error_name plan details a e hA hD hd hin he⟩,
    validatePlan_unknown plan details a hA hD hne hd, hlow.1, hlow.2.1, hlow.2.2,
    fun hl => ?_⟩
  refine ⟨executePlan_unknown doc plan a hA hl, ?_⟩
  rw [String.data_append]
  exact (List.suffix_append _ _).isInfix

/-- Witness of the amended C8: the action `scroll_down` is rejected by the gate
and by the executor, and the spelling `INPUT_TEXT` runs the executor's
`input_text` branch. -/
theorem action_label_matching_witness :
    validatePlan (wirePlan "scroll_down" []) =
      .error (JsError.mkError "Unknown action type received.") ∧
    executePlan sampleDocument (wirePlan "scroll_down" []) =
      ([], [{ status := "error", message := some "Unknown action type: scroll_down" }]) ∧
    executeSwitch sampleDocument (wirePlan "INPUT_TEXT" []) =
      executeInputText sampleDocument (wirePlan "INPUT_TEXT" []) :=
  ⟨(action_label_matching sampleDocument (wirePlan "scroll_down" []) (.obj []) "scroll_down"
      rfl rfl (by decide) rfl).2.1 (by decide),
    ((action_label_matching sampleDocument (wirePlan "scroll_down" []) (.obj []) "scroll_down"
      rfl rfl (by decide) rfl).2.2.2.2.2 (by decide)).1,
    (action_label_matching sampleDocument (wirePlan "INPUT_TEXT" []) (.obj []) "INPUT_TEXT"
      rfl rfl (by decide) rfl).2.2.2.2.1 (by decide)⟩

/-! ## Unknown actions, dispatch and totality of the executor: theorems -/

theorem executeUrlChange_ok (doc : Document) (plan : JSVal) (ops : List DomOp)
    (h : executeUrlChange doc plan = (ops, .ok ())) : ∃ op ∈ ops, isPageAction op = true := by
  unfold executeUrlChange at h
  split at h
  · simp at h
  · split at h
    · split at h
      · simp at h
      · simp only [Prod.mk.injEq] at h
        rw [← h.1]
        exact ⟨_, List.mem_singleton.2 rfl, rfl⟩
    · simp at h

theorem executeButtonClick_ok (doc : Document) (plan : JSVal) (ops : List DomOp)
    (h : executeButtonClick doc plan = (ops, .ok ())) :
    ∃ op ∈ ops, isPageAction op = true := by
  unfold executeButtonClick at h
  split at h
  · simp at h
  · split at h
    · split at h
      · simp at h
      · next button _ =>
          split at h
          · simp at h
          · simp only [Prod.mk.injEq] at h
            rw [← h.1]
            exact ⟨.click button, by simp, rfl⟩
      · simp at h
    · simp at h

theorem executeInputText_ok (doc : Document) (plan : JSVal) (ops : List DomOp)
    (h : executeInputText doc plan = (ops, .ok ())) :
    ∃ op ∈ ops, isPageAction op = true := by
  unfold executeInputText at h
  split at h
  · simp at h
  · split at h
    · split at h
      · simp at h
      · split at h
        · simp at h
        · next text _ _ input _ =>
            split at h
            · simp at h
            · split at h
              · simp at h
              · simp only [Prod.mk.injEq] at h
                rw [← h.1]
                exact ⟨.setValue input text, by simp, rfl⟩
        · simp at h
      · simp at h
    · simp at h

theorem executeSwitch_ok (doc : Document) (plan : JSVal) (ops : List DomOp)
    (h : executeSwitch doc plan = (ops, .ok ())) : ∃ op ∈ ops, isPageAction op = true := by
  unfold executeSwitch at h
  split at h
  · simp at h
  · split at h
    · simp at h
    · split at h
      · exact executeUrlChange_ok doc plan ops h
      · split at h
        · exact executeButtonClick_ok doc plan ops h
        · split at h
          · exact executeInputText_ok doc plan ops h
          · simp at h

theorem executePlan_success (doc : Document) (plan : JSVal)
    (h : (executePlan doc plan).2 = [{ status := "success", message := none }]) :
    ∃ op ∈ (executePlan doc plan).1, isPageAction op = true := by
  unfold executePlan at h ⊢
  split at h
  · next ops heq =>
      simp only [heq]
      exact executeSwitch_ok doc plan ops heq
  · simp at h

theorem executePlan_nonString_action (doc : Document) (plan action : JSVal)
    (hA : plan.getProp "action" = .ok action) (hns : action.isString = false) :
    ∃ m, executePlan doc plan = ([], [{ status := "error", message := some m }]) := by
  have hc : ∃ e, callToLowerCase action = .error e := by
    cases action <;> simp_all [callToLowerCase, JSVal.isString]
  obtain ⟨e, he⟩ := hc
  refine ⟨e.message, ?_⟩
  have hsw : executeSwitch doc plan = ([], .error e) := by
    unfold executeSwitch
    rw [hA]
    simp only [he]
  unfold executePlan
  rw [hsw]

/-- C12, the claim as stated, refuted: `URL CHANGE` is not one of the three
labels, yet the executor navigates and reports success. -/
theorem unknown_tag_counterexample :
    "URL CHANGE" ∉ actionLabels ∧
    executePlan sampleDocument (wirePlan "URL CHANGE" [("url", .str "https://example.com")]) =
      ([.setLocationHref (.str "https://example.com")],
        [{ status := "success", message := none }]) := by
  refine ⟨by decide, rfl⟩

/-- C12, amended. On every page and for every plan: when the action is a string
that does not lower-case to one of the executor's three `case` labels, the
executor responds with the error `Unknown action type: <action>` and performs
no operation on the page; when the action is not a string it responds with an
error and performs no operation; and whenever it responds with success it has
performed a page action, so it never reports success after doing nothing. -/
theorem executor_rejects_unknown (doc : Document) (plan : JSVal) :
    (∀ a, plan.getProp "action" = .ok (.str a) → toLowerCase a ∉ executorLabels →
      executePlan doc plan =
        ([], [{ status := "error", message := some ("Unknown action type: " ++ a) }])) ∧
    (∀ action, plan.getProp "action" = .ok action → action.isString = false →
      ∃ m, executePlan doc plan = ([], [{ status := "error", message := some m }])) ∧
    ((executePlan doc plan).2 = [{ status := "success", message := none }] →
      ∃ op ∈ (executePlan doc plan).1, isPageAction op = true) :=
  ⟨fun a hA hlow => executePlan_unknown doc plan a hA hlow,
    fun action hA hns => executePlan_nonString_action doc plan action hA hns,
    executePlan_success doc plan⟩

/-- Witness of the amended C12: the action `hover` is rejected, and the
successful click on `sampleDocument` comes with a page action. -/
theorem executor_rejects_unknown_witness :
    executePlan sampleDocument (wirePlan "hover" [("selector", .str "#submit-button")]) =
      ([], [{ status := "error", message := some "Unknown action type: hover" }]) ∧
    (∃ op ∈ (executePlan sampleDocument
        (wirePlan "button_click" [("selector", .str "#submit-button")])).1,
      isPageAction op = true) :=
  ⟨(executor_rejects_unknown sampleDocument
      (wirePlan "hover" [("selector", .str "#submit-button")])).1 "hover" rfl (by decide),
    (executor_rejects_unknown sampleDocument
      (wirePlan "button_click" [("selector", .str "#submit-button")])).2.2 rfl⟩

theorem validatePlan_ok_label (plan : JSVal) (msg : String)
    (h : validatePlan plan = .ok msg) :
    ∃ a ∈ actionLabels, plan.getProp "action" = .ok (.str a) := by
  unfold validatePlan at h
  cases hA : plan.getProp "action" with
  | error e => simp [hA, bind, Except.bind] at h
  | ok action =>
      cases hD : plan.getProp "details" with
      | error e =>
          exfalso
          simp only [hA, hD, bind, Except.bind, pure, Except.pure, throw, throwThe,
            MonadExceptOf.throw] at h
          split at h <;> simp at h
      | ok details =>
          cases action with
          | str a =>
              by_cases h1 : a = "URL change"
              · exact ⟨a, by simp [actionLabels, h1], rfl⟩
              · by_cases h2 : a = "button_click"
                · exact ⟨a, by simp [actionLabels, h2], rfl⟩
                · by_cases h3 : a = "input_text"
                  · exact ⟨a, by simp [actionLabels, h3], rfl⟩
                  · exfalso
                    simp only [hA, hD, bind, Except.bind, h1, h2, h3, if_false, pure,
                      Except.pure, throw, throwThe, MonadExceptOf.throw, toStr_str] at h
                    split at h
                    · simp at h
                    · split at h <;> simp at h
          | _ =>
              exfalso
              simp only [hA, hD, bind, Except.bind, pure, Except.pure, throw, throwThe,
                MonadExceptOf.throw] at h
              split at h
              · simp at h
              · split at h
                · simp at h
                · split at h <;> simp at h

/-- C15. Every plan that passes the popup's gate carries, as its action, one of
the three labels, and on every page the executor's `switch` on the lower-cased
action runs the branch of that same label; the branch that reports an unknown
action is not taken. -/
theorem gated_plan_dispatch (doc : Document) (plan : JSVal) (msg : String)
    (h : validatePlan plan = .ok msg) :
    (plan.getProp "action" = .ok (.str "URL change") ∧
      executeSwitch doc plan = executeUrlChange doc plan) ∨
    (plan.getProp "action" = .ok (.str "button_click") ∧
      executeSwitch doc plan = executeButtonClick doc plan) ∨
    (plan.getProp "action" = .ok (.str "input_text") ∧
      executeSwitch doc plan = executeInputText doc plan) := by
  obtain ⟨a, ha, hA⟩ := validatePlan_ok_label plan msg h
  simp only [actionLabels, List.mem_cons, List.mem_singleton, List.not_mem_nil, or_false] at ha
  have hl2 : toLowerCase "button_click" = "button_click" := by decide
  have hl3 : toLowerCase "input_text" = "input_text" := by decide
  rcases ha with ha | ha | ha <;> subst ha
  · exact Or.inl ⟨hA, (executeSwitch_lowered doc plan _ hA).1 toLowerCase_urlChange⟩
  · exact Or.inr (Or.inl ⟨hA, (executeSwitch_lowered doc plan _ hA).2.1 hl2⟩)
  · exact Or.inr (Or.inr ⟨hA, (executeSwitch_lowered doc plan _ hA).2.2 hl3⟩)

/-- Witness of C15 on a click plan that passes the gate. -/
theorem gated_plan_dispatch_witness :
    validatePlan (wirePlan "button_click" [("selector", .str "#submit-button")]) =
      .ok "Planned Action: button_click\nSelector: #submit-button" ∧
    ((wirePlan "button_click" [("selector", .str "#submit-button")]).getProp "action" =
        .ok (.str "URL change") ∧
      executeSwitch sampleDocument (wirePlan "button_click" [("selector", .str "#submit-button")])
        = executeUrlChange sampleDocument
            (wirePlan "button_click" [("selector", .str "#submit-button")]) ∨
    (wirePlan "button_click" [("selector", .str "#submit-button")]).getProp "action" =
        .ok (.str "button_click") ∧
      executeSwitch sampleDocument (wirePlan "button_click" [("selector", .str "#submit-button")])
        = executeButtonClick sampleDocument
            (wirePlan "button_click" [("selector", .str "#submit-button")]) ∨
    (wirePlan "button_click" [("selector", .str "#submit-button")]).getProp "action" =
        .ok (.str "input_text") ∧
      executeSwitch sampleDocument (wirePlan "button_click" [("selector", .str "#submit-button")])
        = executeInputText sampleDocument
            (wirePlan "button_click" [("selector", .str "#submit-button")])) :=
  ⟨rfl, gated_plan_dispatch sampleDocument
    (wirePlan "button_click" [("selector", .str "#submit-button")]) _ rfl⟩

/-- C16. On every page and for every `executePlan` request, whatever its `plan`
(absent, without action, with an action that is not a string, without
details), the handler sends exactly one response; its status is `success`
without a message, or `error` with a message. -/
theorem executePlan_responds_once (doc : Document) (request : List (String × JSVal)) :
    ∃ r, (executePlanRequest doc request).2 = [r] ∧
      ((r.status = "success" ∧ r.message = none) ∨
        (r.status = "error" ∧ ∃ m, r.message = some m)) := by
  unfold executePlanRequest executePlan
  split
  · exact ⟨_, rfl, Or.inl ⟨rfl, rfl⟩⟩
  · next e _ => exact ⟨_, rfl, Or.inr ⟨rfl, e.message, rfl⟩⟩

end OpenOperator
